import Mathlib

/-!
# Touchpad pointer acceleration filter (`src/filter-touchpad.c`)

A shallow embedding of the touchpad accelerator of libinput and proofs of
properties of its acceleration curve, speed mapping and state handling.

Conventions of the embedding:

* C `double` is an arbitrary linearly ordered field `K` (exact arithmetic, no
  rounding).  The definitions are computable and can be run at `K = ℚ`; the
  theorems are stated at `K = ℝ`.
* `pow` of the C maths library is a parameter of `speed_factor`; the theorems
  instantiate it with the real power function `Real.rpow`, which agrees with
  the mathematical value of C `pow` for every non-negative base.
* `uint64_t` timestamps are natural numbers (they are only passed along),
  `int dpi` is an integer.
* `assert` is modelled as a failure (`none`) of the enclosing function.
* Functions and types that the file uses but that are declared elsewhere
  (`filter-private.h`, `filter.c`, `libinput-util.h`) are gathered in the
  record `Externals`, or modelled where their definition is needed.
-/

namespace FilterTouchpad

/-- Unitless slow-down factor of all touchpad movements: `#define TP_MAGIC_SLOWDOWN 0.2968`. -/
def TP_MAGIC_SLOWDOWN {K : Type} [LinearOrderedField K] : K := 0.2968

/-- Modelled from the spec: `struct device_float_coords` (declared outside this file),
the raw delta in device units, an x/y pair. -/
structure device_float_coords (K : Type) where
  x : K
  y : K

/-- Modelled from the spec: `struct normalized_coords` (declared outside this file),
the DPI-independent delta, an x/y pair. -/
structure normalized_coords (K : Type) where
  x : K
  y : K

/-- The acceleration profile a filter points to (`accel_profile_func_t profile`).  The only
profile function of this file is `touchpad_accel_profile_linear`. -/
inductive accel_profile_func_t where
  | touchpad_accel_profile_linear
  deriving DecidableEq

/-- The interface table a filter points to (`base.interface`).  The only table of this file is
`accelerator_interface_touchpad`. -/
inductive interface_ref where
  | accelerator_interface_touchpad
  deriving DecidableEq

/-- The configuration value `type` of the interface table. -/
inductive libinput_config_accel_profile where
  | LIBINPUT_CONFIG_ACCEL_PROFILE_ADAPTIVE
  deriving DecidableEq

/-- Modelled from the spec: `struct motion_filter` (declared in `filter-private.h`), the base
of every filter: the speed adjustment and the interface it dispatches through. -/
structure motion_filter (K : Type) where
  speed_adjustment : K
  interface : interface_ref

/-- Modelled from the spec: `struct pointer_trackers` (declared in `filter-private.h`).  Only its
field `smoothener` is named in this file; the sample window is kept abstract as `window`. -/
structure pointer_trackers (T S : Type) where
  window : T
  smoothener : Option S

/-- The filter state `struct touchpad_accelerator`. -/
structure touchpad_accelerator (K T S : Type) where
  base : motion_filter K
  profile : accel_profile_func_t
  /-- units/us -/
  velocity : K
  /-- units/us -/
  last_velocity : K
  trackers : pointer_trackers T S
  /-- mm/s -/
  threshold : K
  /-- unitless factor -/
  accel : K
  dpi : Int
  /-- factor based on speed setting -/
  speed_factor : K

/-- Modelled from the spec: `v_us2s` (declared in `filter-private.h`) converts a velocity in
units per microsecond into units per second. -/
def v_us2s {K : Type} [LinearOrderedField K] (units_per_us : K) : K :=
  units_per_us * 1000000

/-- The collaborators of the filter that are defined outside this file: DPI normalisation, the
velocity trackers, the delta smoothener and the curve integrator.  `D` is the type of the
caller-specific `void *data`. -/
structure Externals (K T S D : Type) where
  normalize_for_dpi : device_float_coords K → Int → normalized_coords K
  trackers_init : Nat → pointer_trackers T S
  trackers_feed : pointer_trackers T S → device_float_coords K → Nat → pointer_trackers T S
  trackers_velocity : pointer_trackers T S → Nat → K
  trackers_reset : pointer_trackers T S → Nat → pointer_trackers T S
  pointer_delta_smoothener_create : Nat → Nat → S
  calculate_acceleration_simpsons :
    touchpad_accelerator K T S → (touchpad_accelerator K T S → D → K → Nat → K) →
      D → K → K → Nat → K

section Code

variable {K T S D : Type} [LinearOrderedField K]

/-- The piecewise acceleration curve `sensible_acceleration_factor`, in mm/s.  The `min` macro of
`libinput-util.h` is the minimum of the order. -/
def sensible_acceleration_factor (speed_in_mm_s : K) : K :=
  let baseline : K := 0.9
  let threshold : K := 90.0
  let upper_threshold : K := 400.0
  let max_accel : K := 4.0
  if speed_in_mm_s < 7.0 then
    min baseline (0.1 * speed_in_mm_s + 0.3)
  else if speed_in_mm_s ≤ threshold then
    baseline
  else if speed_in_mm_s ≤ upper_threshold then
    baseline + (max_accel - baseline) * (speed_in_mm_s - threshold) / (upper_threshold - threshold)
  else
    max_accel

/-- The profile `touchpad_accel_profile_linear`: the curve at the speed in mm/s, times the speed
factor of the state, times the slow-down constant. -/
def touchpad_accel_profile_linear (filter : touchpad_accelerator K T S) (_data : D)
    (speed_in : K) (_time : Nat) : K :=
  -- Convert to mm/s because that's something one can understand
  let speed_in := v_us2s speed_in * 25.4 / (filter.dpi : K)
  let factor := sensible_acceleration_factor speed_in
  let factor := factor * filter.speed_factor
  factor * TP_MAGIC_SLOWDOWN

/-- Dispatch of the profile pointer stored in the state. -/
def accel_profile_func_t.call :
    accel_profile_func_t → touchpad_accelerator K T S → D → K → Nat → K
  | .touchpad_accel_profile_linear => FilterTouchpad.touchpad_accel_profile_linear

/-- The function `calculate_acceleration_factor`: feed the tracker, take its velocity, integrate
the profile between the last and the new velocity, remember the new velocity. -/
def calculate_acceleration_factor (E : Externals K T S D) (accel : touchpad_accelerator K T S)
    (unaccelerated : device_float_coords K) (data : D) (time : Nat) :
    K × touchpad_accelerator K T S :=
  let accel := { accel with trackers := E.trackers_feed accel.trackers unaccelerated time }
  let velocity := E.trackers_velocity accel.trackers time
  let accel_factor :=
    E.calculate_acceleration_simpsons accel accel.profile.call data velocity
      accel.last_velocity time
  let accel := { accel with last_velocity := velocity }
  (accel_factor, accel)

/-- The accelerated path `accelerator_filter_touchpad`: accelerate the device units, normalise
afterwards. -/
def accelerator_filter_touchpad (E : Externals K T S D) (filter : touchpad_accelerator K T S)
    (unaccelerated : device_float_coords K) (data : D) (time : Nat) :
    normalized_coords K × touchpad_accelerator K T S :=
  let (accel_factor, accel) := calculate_acceleration_factor E filter unaccelerated data time
  let accelerated : device_float_coords K :=
    { x := unaccelerated.x * accel_factor
      y := unaccelerated.y * accel_factor }
  (E.normalize_for_dpi accelerated accel.dpi, accel)

/-- The speed mapping `speed_factor`: `pow(s + 1, 2.38) * 0.95 + 0.05`. -/
def speed_factor (pow : K → K → K) (s : K) : K :=
  pow (s + 1) 2.38 * 0.95 + 0.05

/-- The setter `touchpad_accelerator_set_speed`.  The assertion on the range of the adjustment is
a failure `none`; otherwise the flag `true` and the updated state are returned. -/
def touchpad_accelerator_set_speed (pow : K → K → K) (filter : touchpad_accelerator K T S)
    (speed_adjustment : K) : Option (Bool × touchpad_accelerator K T S) :=
  if speed_adjustment ≥ -1.0 ∧ speed_adjustment ≤ 1.0 then
    let filter := { filter with base := { filter.base with speed_adjustment := speed_adjustment } }
    let filter := { filter with speed_factor := speed_factor pow speed_adjustment }
    some (true, filter)
  else
    none

/-- The constant path `touchpad_constant_filter`: normalise, then scale by the baseline of the
curve and the slow-down constant. -/
def touchpad_constant_filter (E : Externals K T S D) (filter : touchpad_accelerator K T S)
    (unaccelerated : device_float_coords K) (_data : D) (_time : Nat) :
    normalized_coords K × touchpad_accelerator K T S :=
  let baseline : K := 0.9
  let normalized := E.normalize_for_dpi unaccelerated filter.dpi
  let normalized := { normalized with x := baseline * TP_MAGIC_SLOWDOWN * normalized.x }
  let normalized := { normalized with y := baseline * TP_MAGIC_SLOWDOWN * normalized.y }
  (normalized, filter)

/-- The function `touchpad_accelerator_restart`: reset the trackers. -/
def touchpad_accelerator_restart (E : Externals K T S D) (filter : touchpad_accelerator K T S)
    (_data : D) (time : Nat) : touchpad_accelerator K T S :=
  { filter with trackers := E.trackers_reset filter.trackers time }

/-- The function `touchpad_accelerator_destroy`: the trackers and the filter are released, no
state remains. -/
def touchpad_accelerator_destroy (_filter : touchpad_accelerator K T S) : Unit := ()

/-- Modelled from the spec: `struct motion_filter_interface` (declared in `filter-private.h`),
the table of operations of a filter. -/
structure motion_filter_interface (K T S D : Type) where
  type : libinput_config_accel_profile
  filter : touchpad_accelerator K T S → device_float_coords K → D → Nat →
    normalized_coords K × touchpad_accelerator K T S
  filter_constant : touchpad_accelerator K T S → device_float_coords K → D → Nat →
    normalized_coords K × touchpad_accelerator K T S
  filter_scroll : touchpad_accelerator K T S → device_float_coords K → D → Nat →
    normalized_coords K × touchpad_accelerator K T S
  restart : touchpad_accelerator K T S → D → Nat → touchpad_accelerator K T S
  destroy : touchpad_accelerator K T S → Unit
  set_speed : touchpad_accelerator K T S → K → Option (Bool × touchpad_accelerator K T S)

/-- The table `accelerator_interface_touchpad`. -/
def accelerator_interface_touchpad (pow : K → K → K) (E : Externals K T S D) :
    motion_filter_interface K T S D where
  type := .LIBINPUT_CONFIG_ACCEL_PROFILE_ADAPTIVE
  filter := accelerator_filter_touchpad E
  filter_constant := touchpad_constant_filter E
  filter_scroll := touchpad_constant_filter E
  restart := touchpad_accelerator_restart E
  destroy := touchpad_accelerator_destroy
  set_speed := touchpad_accelerator_set_speed pow

/-- The factory `create_pointer_accelerator_filter_touchpad`.  The state is zero-allocated, so
every field that the factory does not assign is zero: `speed_adjustment`, `velocity`, `accel`
and `speed_factor`. -/
def create_pointer_accelerator_filter_touchpad (E : Externals K T S D) (dpi : Int)
    (event_delta_smooth_threshold : Nat) (event_delta_smooth_value : Nat)
    (use_velocity_averaging : Bool) : touchpad_accelerator K T S :=
  let trackers := E.trackers_init (if use_velocity_averaging then 16 else 2)
  { base := { speed_adjustment := 0, interface := .accelerator_interface_touchpad }
    profile := .touchpad_accel_profile_linear
    velocity := 0
    last_velocity := 0.0
    trackers :=
      { trackers with
        smoothener :=
          some (E.pointer_delta_smoothener_create event_delta_smooth_threshold
            event_delta_smooth_value) }
    threshold := 130
    accel := 0
    dpi := dpi
    speed_factor := 0 }

/-- One call of a caller through the interface table (every entry but `destroy`, after which no
state remains). -/
inductive motion_filter_call (K D : Type) where
  | set_speed (speed_adjustment : K)
  | filter (unaccelerated : device_float_coords K) (data : D) (time : Nat)
  | filter_constant (unaccelerated : device_float_coords K) (data : D) (time : Nat)
  | filter_scroll (unaccelerated : device_float_coords K) (data : D) (time : Nat)
  | restart (data : D) (time : Nat)

/-- The state after one call dispatched through `accelerator_interface_touchpad`; `none` when
the call fails its assertion. -/
def dispatch (pow : K → K → K) (E : Externals K T S D) (filter : touchpad_accelerator K T S) :
    motion_filter_call K D → Option (touchpad_accelerator K T S)
  | .set_speed speed_adjustment =>
    ((accelerator_interface_touchpad pow E).set_speed filter speed_adjustment).map Prod.snd
  | .filter unaccelerated data time =>
    some ((accelerator_interface_touchpad pow E).filter filter unaccelerated data time).2
  | .filter_constant unaccelerated data time =>
    some ((accelerator_interface_touchpad pow E).filter_constant filter unaccelerated data time).2
  | .filter_scroll unaccelerated data time =>
    some ((accelerator_interface_touchpad pow E).filter_scroll filter unaccelerated data time).2
  | .restart data time =>
    some ((accelerator_interface_touchpad pow E).restart filter data time)

/-- The state after a sequence of calls, each on the state the previous one left; `none` when a
call fails. -/
def run (pow : K → K → K) (E : Externals K T S D) :
    List (motion_filter_call K D) → touchpad_accelerator K T S →
      Option (touchpad_accelerator K T S)
  | [], filter => some filter
  | call :: calls, filter => (dispatch pow E filter call).bind (run pow E calls)

/-- Two states agree on every field but the vestigial `threshold` and `accel` and the never-read
`velocity`. -/
def agree_up_to_vestigial (filter1 filter2 : touchpad_accelerator K T S) : Prop :=
  filter1.base = filter2.base ∧ filter1.profile = filter2.profile ∧
    filter1.last_velocity = filter2.last_velocity ∧ filter1.trackers = filter2.trackers ∧
    filter1.dpi = filter2.dpi ∧ filter1.speed_factor = filter2.speed_factor

/-- Modelled from the spec: the curve integrator (defined in `filter.c`) sees the filter through
the profile only: it "numerically integrates the acceleration profile between two velocity
samples", so two filters on which the profile agrees give the same factor. -/
def integrator_reads_profile_only (E : Externals K T S D) : Prop :=
  ∀ (filter1 filter2 : touchpad_accelerator K T S)
    (profile : touchpad_accelerator K T S → D → K → Nat → K) (data : D)
    (velocity last_velocity : K) (time : Nat),
    (∀ speed, profile filter1 data speed time = profile filter2 data speed time) →
    E.calculate_acceleration_simpsons filter1 profile data velocity last_velocity time =
      E.calculate_acceleration_simpsons filter2 profile data velocity last_velocity time

/-- Modelled from the spec: the curve integrator (defined in `filter.c`) averages the profile
over the two velocity samples and their midpoint, so a profile with one value at all three
gives that value. -/
def integrator_averages (E : Externals K T S D) : Prop :=
  ∀ (filter : touchpad_accelerator K T S)
    (profile : touchpad_accelerator K T S → D → K → Nat → K) (data : D)
    (velocity last_velocity : K) (time : Nat) (c : K),
    profile filter data velocity time = c →
    profile filter data last_velocity time = c →
    profile filter data ((last_velocity + velocity) / 2) time = c →
    E.calculate_acceleration_simpsons filter profile data velocity last_velocity time = c

/-- Modelled from the spec: the DPI normaliser (declared in `filter-private.h`) "rescales
device-native coordinate deltas": each coordinate is multiplied by a factor that depends on the
dpi only. -/
def normalize_scales (E : Externals K T S D) : Prop :=
  ∃ scale : Int → K, ∀ (coords : device_float_coords K) (dpi : Int),
    E.normalize_for_dpi coords dpi = { x := coords.x * scale dpi, y := coords.y * scale dpi }

/-- A simple instance of the collaborators, for evaluating the filter on concrete inputs: the
window is the list of fed samples, the velocity is the size of the newest delta, normalisation
scales to 1000 dpi and the integrator is Simpson's rule over the last and the new velocity. -/
def sampleExternals (K : Type) [LinearOrderedField K] :
    Externals K (List (device_float_coords K × Nat)) (Nat × Nat) Unit where
  normalize_for_dpi := fun coords dpi =>
    { x := coords.x * 1000 / (dpi : K), y := coords.y * 1000 / (dpi : K) }
  trackers_init := fun _ => { window := [], smoothener := none }
  trackers_feed := fun trackers delta time =>
    { trackers with window := (delta, time) :: trackers.window }
  trackers_velocity := fun trackers _ =>
    match trackers.window with
    | [] => 0
    | (delta, _) :: _ => |delta.x| + |delta.y|
  trackers_reset := fun trackers _ => { trackers with window := [] }
  pointer_delta_smoothener_create := fun threshold value => (threshold, value)
  calculate_acceleration_simpsons := fun filter profile data velocity last_velocity time =>
    (profile filter data velocity time + profile filter data last_velocity time +
      4.0 * profile filter data ((last_velocity + velocity) / 2) time) / 6.0

/-- A concrete filter state: the factory called with 400 dpi on the sample collaborators. -/
def sampleFilter (K : Type) [LinearOrderedField K] :
    touchpad_accelerator K (List (device_float_coords K × Nat)) (Nat × Nat) :=
  create_pointer_accelerator_filter_touchpad (sampleExternals K) 400 0 0 false

end Code

end FilterTouchpad

namespace FilterTouchpad

/-! ## The acceleration curve -/

/-- The curve in closed form: the ramp capped at the baseline plus the excess of the clamped
interpolation over the baseline. -/
theorem sensible_acceleration_factor_closed (s : ℝ) :
    sensible_acceleration_factor s =
      min 0.9 (0.1 * s + 0.3) + (max 0.9 (min 4 (0.9 + (s - 90) / 100)) - 0.9) := by
  unfold sensible_acceleration_factor
  simp only []
  split_ifs with h1 h2 h3
  · rw [max_eq_left (le_trans (min_le_right _ _) (by linarith))]
    ring
  · rw [min_eq_left (by linarith), max_eq_left (le_trans (min_le_right _ _) (by linarith))]
    ring
  · rw [min_eq_left (by linarith), min_eq_right (by linarith), max_eq_right (by linarith)]
    norm_num
    ring
  · rw [min_eq_left (by linarith), min_eq_left (by linarith), max_eq_right (by norm_num)]
    norm_num

/-- C1: `sensible_acceleration_factor` is monotone non-decreasing over the whole real line,
negative speeds and speeds on different branches of the curve included. -/
theorem sensible_acceleration_factor_monotone (a b : ℝ) (h : a ≤ b) :
    sensible_acceleration_factor a ≤ sensible_acceleration_factor b := by
  rw [sensible_acceleration_factor_closed, sensible_acceleration_factor_closed]
  have h1 : min (0.9 : ℝ) (0.1 * a + 0.3) ≤ min 0.9 (0.1 * b + 0.3) :=
    min_le_min le_rfl (by linarith)
  have h2 : max (0.9 : ℝ) (min 4 (0.9 + (a - 90) / 100)) ≤
      max 0.9 (min 4 (0.9 + (b - 90) / 100)) :=
    max_le_max le_rfl (min_le_min le_rfl (by linarith))
  linarith

/-- Witness of C1: a negative speed on the ramp against a speed on the interpolation branch. -/
theorem sensible_acceleration_factor_monotone_witness :
    (-5 : ℝ) ≤ 100 ∧
      sensible_acceleration_factor (-5 : ℝ) ≤ sensible_acceleration_factor (100 : ℝ) :=
  ⟨by norm_num, sensible_acceleration_factor_monotone (-5) 100 (by norm_num)⟩

/-- The curve is a continuous function of the speed. -/
theorem sensible_acceleration_factor_continuous_aux :
    Continuous (fun s : ℝ => sensible_acceleration_factor s) := by
  have h : (fun s : ℝ => sensible_acceleration_factor s) =
      fun s => min 0.9 (0.1 * s + 0.3) + (max 0.9 (min 4 (0.9 + (s - 90) / 100)) - 0.9) :=
    funext sensible_acceleration_factor_closed
  rw [h]
  fun_prop

/-- C2: the curve has no jump at its breakpoints 7, 90 and 400.  Its value at 7 is 0.9 and the
branch below 7 is exactly 0.9 on `[6, 7)`; its value at 90 is 0.9 and the curve tends to 0.9 as
the speed decreases to 90; its value at 400 is 4.0, as is the value above 400; and the curve
is continuous on the whole real line. -/
theorem sensible_acceleration_factor_no_jump :
    sensible_acceleration_factor (7 : ℝ) = 0.9 ∧
    (∀ s : ℝ, 6 ≤ s → s < 7 →
      min (0.9 : ℝ) (0.1 * s + 0.3) = 0.9 ∧ sensible_acceleration_factor s = 0.9) ∧
    sensible_acceleration_factor (6.999 : ℝ) = 0.9 ∧
    sensible_acceleration_factor (90 : ℝ) = 0.9 ∧
    Filter.Tendsto (fun s : ℝ => sensible_acceleration_factor s)
      (nhdsWithin 90 (Set.Ioi 90)) (nhds 0.9) ∧
    (∀ s : ℝ, 90 < s → s ≤ 400 →
      sensible_acceleration_factor s = 0.9 + (4.0 - 0.9) * (s - 90) / (400 - 90)) ∧
    sensible_acceleration_factor (400 : ℝ) = 4.0 ∧
    (∀ s : ℝ, 400 < s → sensible_acceleration_factor s = 4.0) ∧
    Filter.Tendsto (fun s : ℝ => sensible_acceleration_factor s)
      (nhdsWithin 400 (Set.Iio 400)) (nhds 4.0) ∧
    Continuous (fun s : ℝ => sensible_acceleration_factor s) := by
  have h90 : sensible_acceleration_factor (90 : ℝ) = 0.9 := by
    norm_num [sensible_acceleration_factor]
  have h400 : sensible_acceleration_factor (400 : ℝ) = 4.0 := by
    norm_num [sensible_acceleration_factor]
  have hc := sensible_acceleration_factor_continuous_aux
  refine ⟨?_, ?_, ?_, h90, ?_, ?_, h400, ?_, ?_, hc⟩
  · norm_num [sensible_acceleration_factor]
  · intro s h6 h7
    have hmin : min (0.9 : ℝ) (0.1 * s + 0.3) = 0.9 := min_eq_left (by linarith)
    refine ⟨hmin, ?_⟩
    unfold sensible_acceleration_factor
    simp only []
    rw [if_pos (by linarith), hmin]
  · norm_num [sensible_acceleration_factor]
  · have h := (hc.tendsto 90).mono_left (nhdsWithin_le_nhds (s := Set.Ioi (90 : ℝ)))
    rwa [h90] at h
  · intro s h1 h2
    unfold sensible_acceleration_factor
    simp only []
    rw [if_neg (by linarith), if_neg (by linarith), if_pos (by linarith)]
    norm_num
  · intro s h
    unfold sensible_acceleration_factor
    simp only []
    rw [if_neg (by linarith), if_neg (by linarith), if_neg (by linarith)]
  · have h := (hc.tendsto 400).mono_left (nhdsWithin_le_nhds (s := Set.Iio (400 : ℝ)))
    rwa [h400] at h

/-! ## The speed mapping -/

/-- The fiftieth power of `2 ^ 2.38` is `2 ^ 119`. -/
theorem two_rpow_pow_fifty : ((2 : ℝ) ^ (2.38 : ℝ)) ^ (50 : ℕ) = 2 ^ (119 : ℕ) := by
  have h : (2.38 : ℝ) * ((50 : ℕ) : ℝ) = ((119 : ℕ) : ℝ) := by norm_num
  rw [← Real.rpow_natCast, ← Real.rpow_mul (by norm_num), h, Real.rpow_natCast]

/-- Numeric enclosure of the largest power the speed mapping takes: `5.19 ≤ 2 ^ 2.38 ≤ 5.21`. -/
theorem two_rpow_bounds : (5.19 : ℝ) ≤ (2 : ℝ) ^ (2.38 : ℝ) ∧ (2 : ℝ) ^ (2.38 : ℝ) ≤ 5.21 := by
  have h0 : (0 : ℝ) ≤ (2 : ℝ) ^ (2.38 : ℝ) := Real.rpow_nonneg (by norm_num) _
  have h50 := two_rpow_pow_fifty
  constructor
  · apply le_of_pow_le_pow_left₀ (n := 50) (by norm_num) h0
    rw [h50]
    norm_num
  · apply le_of_pow_le_pow_left₀ (n := 50) (by norm_num) (by norm_num)
    rw [h50]
    norm_num

/-- The speed mapping over the reals, written with the power notation. -/
theorem speed_factor_rpow (s : ℝ) :
    speed_factor Real.rpow s = (s + 1) ^ (2.38 : ℝ) * 0.95 + 0.05 := rfl

/-- C3: the anchor values of the speed mapping: `speed_factor(0) = 1.0` exactly,
`speed_factor(-1) = 0.05` exactly (the power of a zero base is zero), and `speed_factor(1)`,
which is `2^2.38 * 0.95 + 0.05`, lies within 0.01 of 4.99. -/
theorem speed_factor_anchor_values :
    speed_factor Real.rpow (0 : ℝ) = 1.0 ∧
    speed_factor Real.rpow (-1 : ℝ) = 0.05 ∧
    speed_factor Real.rpow (1 : ℝ) = (2 : ℝ) ^ (2.38 : ℝ) * 0.95 + 0.05 ∧
    (4.98 : ℝ) ≤ speed_factor Real.rpow (1 : ℝ) ∧ speed_factor Real.rpow (1 : ℝ) ≤ 5.00 ∧
    |speed_factor Real.rpow (1 : ℝ) - 4.99| ≤ 0.01 := by
  have h1 : speed_factor Real.rpow (1 : ℝ) = (2 : ℝ) ^ (2.38 : ℝ) * 0.95 + 0.05 := by
    rw [speed_factor_rpow]
    norm_num
  obtain ⟨hlo, hhi⟩ := two_rpow_bounds
  refine ⟨?_, ?_, h1, ?_, ?_, ?_⟩
  · rw [speed_factor_rpow, zero_add, Real.one_rpow]
    norm_num
  · rw [speed_factor_rpow, neg_add_cancel, Real.zero_rpow (by norm_num)]
    norm_num
  · rw [h1]
    linarith
  · rw [h1]
    linarith
  · rw [h1, abs_le]
    constructor <;> linarith

/-- C4: for every speed setting in `[-1, 1]` the base of the power is non-negative and the speed
factor lies between 0.05 and 5. -/
theorem speed_factor_range (s : ℝ) (hlo : -1 ≤ s) (hhi : s ≤ 1) :
    0 ≤ s + 1 ∧ (0 : ℝ) ≤ 0.05 ∧ 0.05 ≤ speed_factor Real.rpow s ∧
      speed_factor Real.rpow s ≤ 5 := by
  have hb : 0 ≤ s + 1 := by linarith
  have h0 : 0 ≤ (s + 1) ^ (2.38 : ℝ) := Real.rpow_nonneg hb _
  have h2 : (s + 1) ^ (2.38 : ℝ) ≤ (2 : ℝ) ^ (2.38 : ℝ) :=
    Real.rpow_le_rpow hb (by linarith) (by norm_num)
  obtain ⟨-, hhi2⟩ := two_rpow_bounds
  refine ⟨hb, by norm_num, ?_, ?_⟩
  · rw [speed_factor_rpow]
    linarith
  · rw [speed_factor_rpow]
    linarith

/-- Witness of C4: the speed setting one half. -/
theorem speed_factor_range_witness :
    (-1 : ℝ) ≤ 1 / 2 ∧ (1 / 2 : ℝ) ≤ 1 ∧
      (0 ≤ (1 / 2 : ℝ) + 1 ∧ (0 : ℝ) ≤ 0.05 ∧ 0.05 ≤ speed_factor Real.rpow (1 / 2 : ℝ) ∧
        speed_factor Real.rpow (1 / 2 : ℝ) ≤ 5) :=
  ⟨by norm_num, by norm_num, speed_factor_range (1 / 2) (by norm_num) (by norm_num)⟩

/-! ## Setting the speed -/

section SetSpeed

variable {T S D : Type}

/-- C5: for an adjustment in `[-1, 1]`, `touchpad_accelerator_set_speed` returns `true`, stores
the adjustment, sets the speed factor to `(adjustment + 1)^2.38 * 0.95 + 0.05` and leaves every
other field unchanged. -/
theorem touchpad_accelerator_set_speed_in_range (filter : touchpad_accelerator ℝ T S)
    (adjustment : ℝ) (hlo : -1 ≤ adjustment) (hhi : adjustment ≤ 1) :
    ∃ filter1 : touchpad_accelerator ℝ T S,
      touchpad_accelerator_set_speed Real.rpow filter adjustment = some (true, filter1) ∧
      filter1.base.speed_adjustment = adjustment ∧
      filter1.speed_factor = (adjustment + 1) ^ (2.38 : ℝ) * 0.95 + 0.05 ∧
      filter1.base.interface = filter.base.interface ∧
      filter1.profile = filter.profile ∧
      filter1.velocity = filter.velocity ∧
      filter1.last_velocity = filter.last_velocity ∧
      filter1.trackers = filter.trackers ∧
      filter1.threshold = filter.threshold ∧
      filter1.accel = filter.accel ∧
      filter1.dpi = filter.dpi := by
  have h : adjustment ≥ -1.0 ∧ adjustment ≤ 1.0 := by
    constructor
    · norm_num
      exact hlo
    · norm_num
      exact hhi
  refine ⟨{ filter with
      base := { filter.base with speed_adjustment := adjustment }
      speed_factor := speed_factor Real.rpow adjustment }, ?_, ?_⟩
  · unfold touchpad_accelerator_set_speed
    rw [if_pos h]
  · exact ⟨rfl, rfl, rfl, rfl, rfl, rfl, rfl, rfl, rfl, rfl⟩

/-- C6: `touchpad_accelerator_set_speed` fails its assertion, returning no state at all, exactly
for the adjustments outside `[-1, 1]`; the adjustment 1.5 is one of them. -/
theorem touchpad_accelerator_set_speed_fails_iff (filter : touchpad_accelerator ℝ T S)
    (adjustment : ℝ) :
    (touchpad_accelerator_set_speed Real.rpow filter adjustment = none ↔
      (adjustment < -1 ∨ adjustment > 1)) ∧
    touchpad_accelerator_set_speed Real.rpow filter 1.5 = none := by
  constructor
  · unfold touchpad_accelerator_set_speed
    split_ifs with h
    · simp only [reduceCtorEq, false_iff, not_or, not_lt]
      obtain ⟨h1, h2⟩ := h
      constructor
      · norm_num at h1
        exact h1
      · norm_num at h2
        exact h2
    · simp only [true_iff]
      by_contra hc
      push_neg at hc
      apply h
      constructor
      · norm_num
        exact hc.1
      · norm_num
        exact hc.2
  · unfold touchpad_accelerator_set_speed
    rw [if_neg]
    norm_num

/-- Witness of C5: the adjustment one half on the state the factory returns for 400 dpi. -/
theorem touchpad_accelerator_set_speed_in_range_witness :
    (-1 : ℝ) ≤ 1 / 2 ∧ (1 / 2 : ℝ) ≤ 1 ∧
      (touchpad_accelerator_set_speed Real.rpow (sampleFilter ℝ) (1 / 2)).map
          (fun r => (r.1, r.2.base.speed_adjustment, r.2.dpi, r.2.threshold)) =
        some (true, 1 / 2, 400, 130) := by
  obtain ⟨filter1, h, hadj, -, -, -, -, -, -, hthr, -, hdpi⟩ :=
    touchpad_accelerator_set_speed_in_range (sampleFilter ℝ) (1 / 2) (by norm_num) (by norm_num)
  refine ⟨by norm_num, by norm_num, ?_⟩
  rw [h, Option.map_some', hadj, hdpi, hthr]
  rfl

end SetSpeed

/-! ## The constant path -/

section Constant

variable {T S D : Type}

/-- C7: `touchpad_constant_filter` returns, in each coordinate, the DPI-normalised raw delta
multiplied by `0.9 * 0.2968`; the result depends on the state through `dpi` only; the state is
returned unchanged; and the `filter_scroll` entry of the interface is the same function as the
`filter_constant` entry. -/
theorem touchpad_constant_filter_spec (pow : ℝ → ℝ → ℝ) (E : Externals ℝ T S D)
    (filter : touchpad_accelerator ℝ T S) (raw_delta : device_float_coords ℝ) (data : D)
    (time : Nat) :
    (touchpad_constant_filter E filter raw_delta data time).1.x =
      (E.normalize_for_dpi raw_delta filter.dpi).x * (0.9 * 0.2968) ∧
    (touchpad_constant_filter E filter raw_delta data time).1.y =
      (E.normalize_for_dpi raw_delta filter.dpi).y * (0.9 * 0.2968) ∧
    (∀ (filter2 : touchpad_accelerator ℝ T S) (data2 : D) (time2 : Nat),
      filter2.dpi = filter.dpi →
        (touchpad_constant_filter E filter2 raw_delta data2 time2).1 =
          (touchpad_constant_filter E filter raw_delta data time).1) ∧
    (touchpad_constant_filter E filter raw_delta data time).2 = filter ∧
    (accelerator_interface_touchpad pow E).filter_constant = touchpad_constant_filter E ∧
    (accelerator_interface_touchpad pow E).filter_scroll =
      (accelerator_interface_touchpad pow E).filter_constant := by
  refine ⟨?_, ?_, ?_, rfl, rfl, rfl⟩
  · simp only [touchpad_constant_filter, TP_MAGIC_SLOWDOWN]
    ring
  · simp only [touchpad_constant_filter, TP_MAGIC_SLOWDOWN]
    ring
  · intro filter2 data2 time2 hdpi
    simp only [touchpad_constant_filter, hdpi]

end Constant

/-! ## The profile -/

section Profile

variable {T S D : Type}

/-- The speed setting 0 leaves the speed factor 1 in the state. -/
theorem set_speed_zero_speed_factor (filter filter1 : touchpad_accelerator ℝ T S) (flag : Bool)
    (h : touchpad_accelerator_set_speed Real.rpow filter 0 = some (flag, filter1)) :
    filter1.speed_factor = 1 ∧ filter1.dpi = filter.dpi := by
  unfold touchpad_accelerator_set_speed at h
  rw [if_pos (by norm_num)] at h
  simp only [Option.some.injEq, Prod.mk.injEq] at h
  obtain ⟨-, rfl⟩ := h
  refine ⟨?_, rfl⟩
  show speed_factor Real.rpow 0 = 1
  rw [speed_factor_rpow, zero_add, Real.one_rpow]
  norm_num

/-- C8: the plateau of the profile.  For a positive dpi and a velocity whose speed
`v * 1000000 * 25.4 / dpi` lies in `[7, 90]` mm/s the profile is `0.9 * speed_factor * 0.2968`;
with 400 dpi, the speed setting 0 and a velocity of 50 mm/s the factor is 0.26712. -/
theorem touchpad_accel_profile_linear_plateau :
    (∀ (filter : touchpad_accelerator ℝ T S) (data : D) (v : ℝ) (time : Nat),
      0 < filter.dpi →
      7 ≤ v * 1000000 * 25.4 / (filter.dpi : ℝ) →
      v * 1000000 * 25.4 / (filter.dpi : ℝ) ≤ 90 →
        touchpad_accel_profile_linear filter data v time =
          0.9 * filter.speed_factor * 0.2968) ∧
    (∀ (filter filter1 : touchpad_accelerator ℝ T S) (data : D) (v : ℝ) (time : Nat),
      filter.dpi = 400 →
      touchpad_accelerator_set_speed Real.rpow filter 0 = some (true, filter1) →
      v * 1000000 * 25.4 / 400 = 50 →
        filter1.speed_factor = 1.0 ∧
        touchpad_accel_profile_linear filter1 data v time = 0.9 * 1.0 * 0.2968 ∧
        touchpad_accel_profile_linear filter1 data v time = 0.26712 ∧
        |touchpad_accel_profile_linear filter1 data v time - 0.26712| ≤ 1e-4) := by
  have plateau : ∀ (filter : touchpad_accelerator ℝ T S) (data : D) (v : ℝ) (time : Nat),
      7 ≤ v * 1000000 * 25.4 / (filter.dpi : ℝ) →
      v * 1000000 * 25.4 / (filter.dpi : ℝ) ≤ 90 →
        touchpad_accel_profile_linear filter data v time =
          0.9 * filter.speed_factor * 0.2968 := by
    intro filter data v time h7 h90
    unfold touchpad_accel_profile_linear sensible_acceleration_factor v_us2s TP_MAGIC_SLOWDOWN
    simp only []
    rw [if_neg (by linarith), if_pos (by linarith)]
  refine ⟨fun filter data v time _ h7 h90 => plateau filter data v time h7 h90, ?_⟩
  intro filter filter1 data v time hdpi hset hv
  obtain ⟨hsf, hdpi1⟩ := set_speed_zero_speed_factor filter filter1 true hset
  have hd : ((filter1.dpi : ℤ) : ℝ) = 400 := by
    rw [hdpi1, hdpi]
    norm_num
  have hp := plateau filter1 data v time (by rw [hd, hv]; norm_num) (by rw [hd, hv]; norm_num)
  rw [hsf] at hp
  refine ⟨by rw [hsf]; norm_num, by rw [hp]; norm_num, by rw [hp]; norm_num, ?_⟩
  rw [hp]
  norm_num [abs_le]

/-- Witness of C8: the state of the factory for 400 dpi after the speed setting 0, at the
velocity of 50 mm/s. -/
theorem touchpad_accel_profile_linear_plateau_witness :
    (touchpad_accelerator_set_speed Real.rpow (sampleFilter ℝ) 0).map
        (fun r => touchpad_accel_profile_linear r.2 () (50 * 400 / (1000000 * 25.4)) 0) =
      some 0.26712 := by
  have hset : touchpad_accelerator_set_speed Real.rpow (sampleFilter ℝ) 0 =
      some (true, { sampleFilter ℝ with
        base := { (sampleFilter ℝ).base with speed_adjustment := 0 }
        speed_factor := speed_factor Real.rpow 0 }) := by
    unfold touchpad_accelerator_set_speed
    rw [if_pos (by norm_num)]
  have h := (touchpad_accel_profile_linear_plateau (T := List (device_float_coords ℝ × Nat))
    (S := Nat × Nat) (D := Unit)).2 (sampleFilter ℝ) _ () (50 * 400 / (1000000 * 25.4)) 0 rfl
    hset (by norm_num)
  rw [hset, Option.map_some']
  exact congrArg some h.2.2.1

/-- C9: the low-speed ramp of the profile.  For a positive dpi and a velocity whose speed
`v * 1000000 * 25.4 / dpi` is below 7 mm/s the profile is
`min(0.9, 0.1 * speed + 0.3) * speed_factor * 0.2968`; with 400 dpi, the speed setting 0 and a
velocity of 3.5 mm/s the curve value is 0.65 and the factor is 0.19292. -/
theorem touchpad_accel_profile_linear_ramp :
    (∀ (filter : touchpad_accelerator ℝ T S) (data : D) (v : ℝ) (time : Nat),
      0 < filter.dpi →
      v * 1000000 * 25.4 / (filter.dpi : ℝ) < 7 →
        touchpad_accel_profile_linear filter data v time =
          min 0.9 (0.1 * (v * 1000000 * 25.4 / (filter.dpi : ℝ)) + 0.3) *
            filter.speed_factor * 0.2968) ∧
    (∀ (filter filter1 : touchpad_accelerator ℝ T S) (data : D) (v : ℝ) (time : Nat),
      filter.dpi = 400 →
      touchpad_accelerator_set_speed Real.rpow filter 0 = some (true, filter1) →
      v * 1000000 * 25.4 / 400 = 3.5 →
        sensible_acceleration_factor (3.5 : ℝ) = 0.65 ∧
        min (0.9 : ℝ) (0.1 * 3.5 + 0.3) = 0.65 ∧
        touchpad_accel_profile_linear filter1 data v time = 0.65 * 1.0 * 0.2968 ∧
        touchpad_accel_profile_linear filter1 data v time = 0.19292) := by
  have ramp : ∀ (filter : touchpad_accelerator ℝ T S) (data : D) (v : ℝ) (time : Nat),
      v * 1000000 * 25.4 / (filter.dpi : ℝ) < 7 →
        touchpad_accel_profile_linear filter data v time =
          min 0.9 (0.1 * (v * 1000000 * 25.4 / (filter.dpi : ℝ)) + 0.3) *
            filter.speed_factor * 0.2968 := by
    intro filter data v time h7
    unfold touchpad_accel_profile_linear sensible_acceleration_factor v_us2s TP_MAGIC_SLOWDOWN
    simp only []
    rw [if_pos (by linarith)]
  have hmin : min (0.9 : ℝ) (0.1 * 3.5 + 0.3) = 0.65 := by
    rw [min_eq_right (by norm_num)]
    norm_num
  refine ⟨fun filter data v time _ h7 => ramp filter data v time h7, ?_⟩
  intro filter filter1 data v time hdpi hset hv
  obtain ⟨hsf, hdpi1⟩ := set_speed_zero_speed_factor filter filter1 true hset
  have hd : ((filter1.dpi : ℤ) : ℝ) = 400 := by
    rw [hdpi1, hdpi]
    norm_num
  have hp := ramp filter1 data v time (by rw [hd, hv]; norm_num)
  rw [hsf, hd, hv, hmin] at hp
  refine ⟨?_, hmin, by rw [hp]; norm_num, by rw [hp]; norm_num⟩
  unfold sensible_acceleration_factor
  simp only []
  rw [if_pos (by norm_num), hmin]

/-- Witness of C9: the state of the factory for 400 dpi after the speed setting 0, at the
velocity of 3.5 mm/s. -/
theorem touchpad_accel_profile_linear_ramp_witness :
    (touchpad_accelerator_set_speed Real.rpow (sampleFilter ℝ) 0).map
        (fun r => touchpad_accel_profile_linear r.2 () (3.5 * 400 / (1000000 * 25.4)) 0) =
      some 0.19292 := by
  have hset : touchpad_accelerator_set_speed Real.rpow (sampleFilter ℝ) 0 =
      some (true, { sampleFilter ℝ with
        base := { (sampleFilter ℝ).base with speed_adjustment := 0 }
        speed_factor := speed_factor Real.rpow 0 }) := by
    unfold touchpad_accelerator_set_speed
    rw [if_pos (by norm_num)]
  have h := (touchpad_accel_profile_linear_ramp (T := List (device_float_coords ℝ × Nat))
    (S := Nat × Nat) (D := Unit)).2 (sampleFilter ℝ) _ () (3.5 * 400 / (1000000 * 25.4)) 0 rfl
    hset (by norm_num)
  rw [hset, Option.map_some']
  exact congrArg some h.2.2.2

end Profile

/-! ## The cached speed factor along sequences of calls -/

section Cache

variable {T S D : Type}

/-- A successful `set_speed` call leaves a state whose cached factor matches its adjustment. -/
theorem dispatch_set_speed_cache (pow : ℝ → ℝ → ℝ) (E : Externals ℝ T S D)
    (filter filter1 : touchpad_accelerator ℝ T S) (adjustment : ℝ)
    (h : dispatch pow E filter (.set_speed adjustment) = some filter1) :
    filter1.speed_factor = speed_factor pow filter1.base.speed_adjustment := by
  simp only [dispatch, accelerator_interface_touchpad, touchpad_accelerator_set_speed] at h
  split_ifs at h with hr
  · simp only [Option.map_some', Option.some.injEq] at h
    subst h
    rfl
  · simp at h

/-- A call other than `set_speed` changes neither the adjustment nor the cached factor. -/
theorem dispatch_other_cache (pow : ℝ → ℝ → ℝ) (E : Externals ℝ T S D)
    (filter filter1 : touchpad_accelerator ℝ T S) (call : motion_filter_call ℝ D)
    (hcall : ∀ adjustment, call ≠ .set_speed adjustment)
    (h : dispatch pow E filter call = some filter1) :
    filter1.speed_factor = filter.speed_factor ∧
      filter1.base.speed_adjustment = filter.base.speed_adjustment := by
  cases call with
  | set_speed adjustment => exact absurd rfl (hcall adjustment)
  | filter unaccelerated data time =>
    simp only [dispatch, Option.some.injEq] at h
    subst h
    exact ⟨rfl, rfl⟩
  | filter_constant unaccelerated data time =>
    simp only [dispatch, Option.some.injEq] at h
    subst h
    exact ⟨rfl, rfl⟩
  | filter_scroll unaccelerated data time =>
    simp only [dispatch, Option.some.injEq] at h
    subst h
    exact ⟨rfl, rfl⟩
  | restart data time =>
    simp only [dispatch, Option.some.injEq] at h
    subst h
    exact ⟨rfl, rfl⟩

/-- Every call keeps a matching cache matching. -/
theorem dispatch_keeps_cache (pow : ℝ → ℝ → ℝ) (E : Externals ℝ T S D)
    (filter filter1 : touchpad_accelerator ℝ T S) (call : motion_filter_call ℝ D)
    (hinv : filter.speed_factor = speed_factor pow filter.base.speed_adjustment)
    (h : dispatch pow E filter call = some filter1) :
    filter1.speed_factor = speed_factor pow filter1.base.speed_adjustment := by
  by_cases hc : ∃ adjustment, call = .set_speed adjustment
  · obtain ⟨adjustment, rfl⟩ := hc
    exact dispatch_set_speed_cache pow E filter filter1 adjustment h
  · push_neg at hc
    obtain ⟨h1, h2⟩ := dispatch_other_cache pow E filter filter1 call hc h
    rw [h1, h2, hinv]

/-- A sequence of calls keeps a matching cache matching. -/
theorem run_keeps_cache (pow : ℝ → ℝ → ℝ) (E : Externals ℝ T S D)
    (calls : List (motion_filter_call ℝ D)) :
    ∀ filter filter1 : touchpad_accelerator ℝ T S,
      filter.speed_factor = speed_factor pow filter.base.speed_adjustment →
      run pow E calls filter = some filter1 →
      filter1.speed_factor = speed_factor pow filter1.base.speed_adjustment := by
  induction calls with
  | nil =>
    intro filter filter1 hinv h
    simp only [run, Option.some.injEq] at h
    subst h
    exact hinv
  | cons call calls ih =>
    intro filter filter1 hinv h
    simp only [run, Option.bind_eq_some] at h
    obtain ⟨mid, hmid, hrest⟩ := h
    exact ih mid filter1 (dispatch_keeps_cache pow E filter mid call hinv hmid) hrest

/-- A sequence of calls with a `set_speed` call among them ends with a matching cache, whatever
the state it starts from. -/
theorem run_establishes_cache (pow : ℝ → ℝ → ℝ) (E : Externals ℝ T S D)
    (calls : List (motion_filter_call ℝ D)) :
    ∀ filter filter1 : touchpad_accelerator ℝ T S,
      (∃ adjustment, motion_filter_call.set_speed adjustment ∈ calls) →
      run pow E calls filter = some filter1 →
      filter1.speed_factor = speed_factor pow filter1.base.speed_adjustment := by
  induction calls with
  | nil =>
    intro filter filter1 hmem
    obtain ⟨adjustment, hadj⟩ := hmem
    simp at hadj
  | cons call calls ih =>
    intro filter filter1 hmem h
    simp only [run, Option.bind_eq_some] at h
    obtain ⟨mid, hmid, hrest⟩ := h
    by_cases hc : ∃ adjustment, call = .set_speed adjustment
    · obtain ⟨adjustment, rfl⟩ := hc
      exact run_keeps_cache pow E calls mid filter1
        (dispatch_set_speed_cache pow E filter mid adjustment hmid) hrest
    · push_neg at hc
      apply ih mid filter1 _ hrest
      obtain ⟨adjustment, hadj⟩ := hmem
      rcases List.mem_cons.1 hadj with heq | htail
      · exact absurd heq.symm (hc adjustment)
      · exact ⟨adjustment, htail⟩

/-- A sequence of calls without a `set_speed` call changes neither the adjustment nor the cached
factor. -/
theorem run_without_set_speed (pow : ℝ → ℝ → ℝ) (E : Externals ℝ T S D)
    (calls : List (motion_filter_call ℝ D)) :
    ∀ filter filter1 : touchpad_accelerator ℝ T S,
      (∀ adjustment, motion_filter_call.set_speed adjustment ∉ calls) →
      run pow E calls filter = some filter1 →
      filter1.speed_factor = filter.speed_factor ∧
        filter1.base.speed_adjustment = filter.base.speed_adjustment := by
  induction calls with
  | nil =>
    intro filter filter1 _ h
    simp only [run, Option.some.injEq] at h
    subst h
    exact ⟨rfl, rfl⟩
  | cons call calls ih =>
    intro filter filter1 hno h
    simp only [run, Option.bind_eq_some] at h
    obtain ⟨mid, hmid, hrest⟩ := h
    have hc : ∀ adjustment, call ≠ .set_speed adjustment := by
      intro adjustment heq
      exact hno adjustment (by rw [heq]; exact List.mem_cons_self _ _)
    obtain ⟨h1, h2⟩ := dispatch_other_cache pow E filter mid call hc hmid
    obtain ⟨h3, h4⟩ := ih mid filter1
      (fun adjustment hmem => hno adjustment (List.mem_cons_of_mem _ hmem)) hrest
    exact ⟨h3.trans h1, h4.trans h2⟩

/-- C10, the claim as stated fails: the state the factory returns (reached by the empty sequence
of calls) stores the adjustment 0 and the factor 0, whereas the factor of the adjustment 0 is 1;
so not every reachable state has a cache matching its adjustment. -/
theorem fresh_state_cache_stale :
    run Real.rpow (sampleExternals ℝ) [] (sampleFilter ℝ) = some (sampleFilter ℝ) ∧
    (sampleFilter ℝ).base.speed_adjustment = 0 ∧
    (sampleFilter ℝ).speed_factor = 0 ∧
    speed_factor Real.rpow (sampleFilter ℝ).base.speed_adjustment = 1 ∧
    ¬ (∀ (calls : List (motion_filter_call ℝ Unit))
        (filter1 : touchpad_accelerator ℝ (List (device_float_coords ℝ × Nat)) (Nat × Nat)),
        run Real.rpow (sampleExternals ℝ) calls
            (create_pointer_accelerator_filter_touchpad (sampleExternals ℝ) 400 0 0 false) =
          some filter1 →
        filter1.speed_factor = speed_factor Real.rpow filter1.base.speed_adjustment) := by
  have h1 : speed_factor Real.rpow (sampleFilter ℝ).base.speed_adjustment = 1 := by
    show speed_factor Real.rpow 0 = 1
    rw [speed_factor_rpow, zero_add, Real.one_rpow]
    norm_num
  refine ⟨rfl, rfl, rfl, h1, ?_⟩
  intro hall
  have h := hall [] (sampleFilter ℝ) rfl
  rw [h1] at h
  have h0 : (sampleFilter ℝ).speed_factor = 0 := rfl
  rw [h0] at h
  exact zero_ne_one h

/-- C10, amended: in every state reached from the state of the factory by a sequence of
successful calls (`set_speed`, `filter`, `filter_constant`, `filter_scroll`, `restart`) with at
least one `set_speed` call among them, the cached speed factor is
`(speed_adjustment + 1)^2.38 * 0.95 + 0.05` for the stored adjustment; without a `set_speed`
call the state still has the adjustment 0 and the factor 0 of the factory. -/
theorem speed_factor_cache_after_set_speed (E : Externals ℝ T S D) (dpi : Int)
    (event_delta_smooth_threshold event_delta_smooth_value : Nat)
    (use_velocity_averaging : Bool) (calls : List (motion_filter_call ℝ D))
    (filter1 : touchpad_accelerator ℝ T S)
    (hrun : run Real.rpow E calls
        (create_pointer_accelerator_filter_touchpad E dpi event_delta_smooth_threshold
          event_delta_smooth_value use_velocity_averaging) = some filter1) :
    ((∃ adjustment, motion_filter_call.set_speed adjustment ∈ calls) →
      filter1.speed_factor = (filter1.base.speed_adjustment + 1) ^ (2.38 : ℝ) * 0.95 + 0.05) ∧
    ((∀ adjustment, motion_filter_call.set_speed adjustment ∉ calls) →
      filter1.base.speed_adjustment = 0 ∧ filter1.speed_factor = 0) := by
  constructor
  · intro hmem
    rw [← speed_factor_rpow]
    exact run_establishes_cache Real.rpow E calls _ filter1 hmem hrun
  · intro hno
    obtain ⟨h1, h2⟩ := run_without_set_speed Real.rpow E calls _ filter1 hno hrun
    exact ⟨h2, h1⟩

/-- Witness of C10: a `filter` call, the speed setting one half, a restart and a constant
`filter` call on the state of the factory for 400 dpi. -/
theorem speed_factor_cache_after_set_speed_witness :
    (run Real.rpow (sampleExternals ℝ)
        [.filter ⟨1, 2⟩ () 10, .set_speed (1 / 2), .restart () 20,
          .filter_constant ⟨3, 4⟩ () 30]
        (sampleFilter ℝ)).map
      (fun filter1 => (filter1.base.speed_adjustment, filter1.speed_factor)) =
    some (1 / 2, (1 / 2 + 1) ^ (2.38 : ℝ) * 0.95 + 0.05) := by
  have hrun : ∃ filter1, run Real.rpow (sampleExternals ℝ)
      [.filter ⟨1, 2⟩ () 10, .set_speed (1 / 2), .restart () 20,
        .filter_constant ⟨3, 4⟩ () 30]
      (create_pointer_accelerator_filter_touchpad (sampleExternals ℝ) 400 0 0 false) =
        some filter1 ∧ filter1.base.speed_adjustment = 1 / 2 := by
    have hr : (1 / 2 : ℝ) ≥ -1.0 ∧ (1 / 2 : ℝ) ≤ 1.0 := by norm_num
    simp only [run, dispatch, accelerator_interface_touchpad, touchpad_accelerator_set_speed,
      if_pos hr, Option.map_some', Option.some_bind]
    exact ⟨_, rfl, rfl⟩
  obtain ⟨filter1, h, hadj⟩ := hrun
  have hc := (speed_factor_cache_after_set_speed (sampleExternals ℝ) 400 0 0 false _ filter1
    h).1 ⟨1 / 2, by simp⟩
  show Option.map _ (run _ _ _ (create_pointer_accelerator_filter_touchpad _ 400 0 0 false)) = _
  rw [h, Option.map_some', hc, hadj]

end Cache

/-! ## The range of the adjustment and the immutable dpi -/

section Range

variable {T S D : Type}

/-- Every successful call keeps the dpi, and keeps the adjustment within `[-1, 1]`. -/
theorem dispatch_keeps_range (pow : ℝ → ℝ → ℝ) (E : Externals ℝ T S D)
    (filter filter1 : touchpad_accelerator ℝ T S) (call : motion_filter_call ℝ D)
    (hinv : -1 ≤ filter.base.speed_adjustment ∧ filter.base.speed_adjustment ≤ 1)
    (h : dispatch pow E filter call = some filter1) :
    (-1 ≤ filter1.base.speed_adjustment ∧ filter1.base.speed_adjustment ≤ 1) ∧
      filter1.dpi = filter.dpi := by
  cases call with
  | set_speed adjustment =>
    simp only [dispatch, accelerator_interface_touchpad, touchpad_accelerator_set_speed] at h
    split_ifs at h with hr
    · simp only [Option.map_some', Option.some.injEq] at h
      subst h
      obtain ⟨h1, h2⟩ := hr
      norm_num at h1 h2
      exact ⟨⟨h1, h2⟩, rfl⟩
    · simp at h
  | filter unaccelerated data time =>
    simp only [dispatch, Option.some.injEq] at h
    subst h
    exact ⟨hinv, rfl⟩
  | filter_constant unaccelerated data time =>
    simp only [dispatch, Option.some.injEq] at h
    subst h
    exact ⟨hinv, rfl⟩
  | filter_scroll unaccelerated data time =>
    simp only [dispatch, Option.some.injEq] at h
    subst h
    exact ⟨hinv, rfl⟩
  | restart data time =>
    simp only [dispatch, Option.some.injEq] at h
    subst h
    exact ⟨hinv, rfl⟩

/-- A sequence of successful calls keeps the dpi, and keeps the adjustment within `[-1, 1]`. -/
theorem run_keeps_range (pow : ℝ → ℝ → ℝ) (E : Externals ℝ T S D)
    (calls : List (motion_filter_call ℝ D)) :
    ∀ filter filter1 : touchpad_accelerator ℝ T S,
      (-1 ≤ filter.base.speed_adjustment ∧ filter.base.speed_adjustment ≤ 1) →
      run pow E calls filter = some filter1 →
      (-1 ≤ filter1.base.speed_adjustment ∧ filter1.base.speed_adjustment ≤ 1) ∧
        filter1.dpi = filter.dpi := by
  induction calls with
  | nil =>
    intro filter filter1 hinv h
    simp only [run, Option.some.injEq] at h
    subst h
    exact ⟨hinv, rfl⟩
  | cons call calls ih =>
    intro filter filter1 hinv h
    simp only [run, Option.bind_eq_some] at h
    obtain ⟨mid, hmid, hrest⟩ := h
    obtain ⟨hmidinv, hmiddpi⟩ := dispatch_keeps_range pow E filter mid call hinv hmid
    obtain ⟨hfin, hfindpi⟩ := ih mid filter1 hmidinv hrest
    exact ⟨hfin, hfindpi.trans hmiddpi⟩

/-- C11: in every state reached from the state of the factory by a sequence of successful calls
(`set_speed`, `filter`, `filter_constant`, `filter_scroll`, `restart`), the stored adjustment lies
in `[-1, 1]` and the dpi is the dpi that was passed to the factory. -/
theorem reachable_speed_adjustment_range_and_dpi (E : Externals ℝ T S D) (dpi : Int)
    (event_delta_smooth_threshold event_delta_smooth_value : Nat)
    (use_velocity_averaging : Bool) (calls : List (motion_filter_call ℝ D))
    (filter1 : touchpad_accelerator ℝ T S)
    (hrun : run Real.rpow E calls
        (create_pointer_accelerator_filter_touchpad E dpi event_delta_smooth_threshold
          event_delta_smooth_value use_velocity_averaging) = some filter1) :
    -1 ≤ filter1.base.speed_adjustment ∧ filter1.base.speed_adjustment ≤ 1 ∧
      filter1.dpi = dpi := by
  have h0 : -1 ≤ (create_pointer_accelerator_filter_touchpad E dpi event_delta_smooth_threshold
        event_delta_smooth_value use_velocity_averaging).base.speed_adjustment ∧
      (create_pointer_accelerator_filter_touchpad E dpi event_delta_smooth_threshold
        event_delta_smooth_value use_velocity_averaging).base.speed_adjustment ≤ (1 : ℝ) := by
    show (-1 : ℝ) ≤ 0 ∧ (0 : ℝ) ≤ 1
    norm_num
  obtain ⟨⟨h1, h2⟩, h3⟩ := run_keeps_range Real.rpow E calls _ filter1 h0 hrun
  exact ⟨h1, h2, h3⟩

/-- Witness of C11: two speed settings around a `filter` call and a restart on the state of the
factory for 400 dpi. -/
theorem reachable_speed_adjustment_range_and_dpi_witness :
    (run Real.rpow (sampleExternals ℝ)
        [.set_speed (-1), .filter ⟨1, 2⟩ () 10, .restart () 20, .set_speed 1]
        (sampleFilter ℝ)).map
      (fun filter1 => (filter1.base.speed_adjustment, filter1.dpi)) = some (1, 400) := by
  have hrun : ∃ filter1, run Real.rpow (sampleExternals ℝ)
      [.set_speed (-1), .filter ⟨1, 2⟩ () 10, .restart () 20, .set_speed 1]
      (create_pointer_accelerator_filter_touchpad (sampleExternals ℝ) 400 0 0 false) =
        some filter1 ∧ filter1.base.speed_adjustment = 1 := by
    have hr1 : (-1 : ℝ) ≥ -1.0 ∧ (-1 : ℝ) ≤ 1.0 := by norm_num
    have hr2 : (1 : ℝ) ≥ -1.0 ∧ (1 : ℝ) ≤ 1.0 := by norm_num
    simp only [run, dispatch, accelerator_interface_touchpad, touchpad_accelerator_set_speed,
      if_pos hr1, if_pos hr2, Option.map_some', Option.some_bind]
    exact ⟨_, rfl, rfl⟩
  obtain ⟨filter1, h, hadj⟩ := hrun
  have hc := reachable_speed_adjustment_range_and_dpi (sampleExternals ℝ) 400 0 0 false _
    filter1 h
  show Option.map _ (run _ _ _ (create_pointer_accelerator_filter_touchpad _ 400 0 0 false)) = _
  rw [h, Option.map_some', hc.2.2, hadj]

end Range

/-! ## Bounds of the acceleration factor -/

section Bounds

variable {T S D : Type}

/-- The curve never exceeds the maximum acceleration 4.0. -/
theorem sensible_acceleration_factor_le_max (s : ℝ) : sensible_acceleration_factor s ≤ 4.0 := by
  rw [sensible_acceleration_factor_closed]
  have h1 : min (0.9 : ℝ) (0.1 * s + 0.3) ≤ 0.9 := min_le_left _ _
  have h2 : max (0.9 : ℝ) (min 4 (0.9 + (s - 90) / 100)) ≤ 4 :=
    max_le (by norm_num) (min_le_left _ _)
  norm_num
  linarith

/-- The curve is at least 0.3 for a non-negative speed. -/
theorem sensible_acceleration_factor_ge_min (s : ℝ) (hs : 0 ≤ s) :
    0.3 ≤ sensible_acceleration_factor s := by
  rw [sensible_acceleration_factor_closed]
  have h1 : (0.3 : ℝ) ≤ min 0.9 (0.1 * s + 0.3) := le_min (by norm_num) (by linarith)
  have h2 : (0.9 : ℝ) ≤ max 0.9 (min 4 (0.9 + (s - 90) / 100)) := le_max_left _ _
  linarith

/-- The converted speed of a non-negative velocity at a positive dpi is non-negative. -/
theorem converted_speed_nonneg (dpi : Int) (v : ℝ) (hdpi : 0 < dpi) (hv : 0 ≤ v) :
    0 ≤ v * 1000000 * 25.4 / (dpi : ℝ) := by
  have hd : (0 : ℝ) < (dpi : ℝ) := by exact_mod_cast hdpi
  positivity

/-- C12: for a positive dpi, a non-negative velocity and a non-negative speed factor the profile
returns a factor `f` with `0 ≤ 0.3 * speed_factor * 0.2968 ≤ f ≤ 4.0 * speed_factor * 0.2968`;
the curve itself lies in `[0.3, 4.0]` for a non-negative speed and never exceeds 4.0. -/
theorem touchpad_accel_profile_linear_bounds (filter : touchpad_accelerator ℝ T S) (data : D)
    (v : ℝ) (time : Nat) (hdpi : 0 < filter.dpi) (hv : 0 ≤ v) (hsf : 0 ≤ filter.speed_factor) :
    0 ≤ 0.3 * filter.speed_factor * 0.2968 ∧
    0.3 * filter.speed_factor * 0.2968 ≤ touchpad_accel_profile_linear filter data v time ∧
    touchpad_accel_profile_linear filter data v time ≤ 4.0 * filter.speed_factor * 0.2968 ∧
    (∀ s : ℝ, 0 ≤ s → 0.3 ≤ sensible_acceleration_factor s ∧
      sensible_acceleration_factor s ≤ 4.0) ∧
    (∀ s : ℝ, sensible_acceleration_factor s ≤ 4.0) := by
  have hs := converted_speed_nonneg filter.dpi v hdpi hv
  have hlo := sensible_acceleration_factor_ge_min _ hs
  have hhi := sensible_acceleration_factor_le_max (v * 1000000 * 25.4 / (filter.dpi : ℝ))
  have hp : touchpad_accel_profile_linear filter data v time =
      sensible_acceleration_factor (v * 1000000 * 25.4 / (filter.dpi : ℝ)) *
        filter.speed_factor * 0.2968 := rfl
  refine ⟨by positivity, ?_, ?_, ?_, sensible_acceleration_factor_le_max⟩
  · rw [hp]
    have := mul_le_mul_of_nonneg_right hlo hsf
    nlinarith
  · rw [hp]
    have := mul_le_mul_of_nonneg_right hhi hsf
    nlinarith
  · intro s hs0
    exact ⟨sensible_acceleration_factor_ge_min s hs0, sensible_acceleration_factor_le_max s⟩

/-- Witness of C12: 400 dpi, the speed factor 1 and the velocity of 50 mm/s. -/
theorem touchpad_accel_profile_linear_bounds_witness :
    0.3 * (1 : ℝ) * 0.2968 ≤
        touchpad_accel_profile_linear { sampleFilter ℝ with speed_factor := 1 } ()
          (50 * 400 / (1000000 * 25.4)) 0 ∧
      touchpad_accel_profile_linear { sampleFilter ℝ with speed_factor := 1 } ()
          (50 * 400 / (1000000 * 25.4)) 0 ≤ 4.0 * (1 : ℝ) * 0.2968 := by
  have h := touchpad_accel_profile_linear_bounds { sampleFilter ℝ with speed_factor := 1 } ()
    (50 * 400 / (1000000 * 25.4)) 0 (by decide) (by norm_num) (by norm_num)
  exact ⟨h.2.1, h.2.2.1⟩

end Bounds

/-! ## The accelerated path, restart and repeated speed settings -/

section Operations

variable {T S D : Type}

/-- C13: `accelerator_filter_touchpad` feeds the raw delta and the time to the tracker and takes
the tracker's velocity `v`; obtains the factor from the curve integrator called with the profile,
`v` and the `last_velocity` stored before the call; returns `normalize_for_dpi` of the raw delta
scaled by the factor, at the dpi of the state; and leaves a state with `last_velocity = v` and
the fed tracker in which every other field is unchanged. -/
theorem accelerator_filter_touchpad_spec (E : Externals ℝ T S D)
    (filter : touchpad_accelerator ℝ T S) (raw_delta : device_float_coords ℝ) (data : D)
    (time : Nat) :
    ∃ (fed : pointer_trackers T S) (v factor : ℝ),
      fed = E.trackers_feed filter.trackers raw_delta time ∧
      v = E.trackers_velocity fed time ∧
      factor = E.calculate_acceleration_simpsons { filter with trackers := fed }
        touchpad_accel_profile_linear data v filter.last_velocity time ∧
      (accelerator_filter_touchpad E filter raw_delta data time).1 =
        E.normalize_for_dpi { x := raw_delta.x * factor, y := raw_delta.y * factor } filter.dpi ∧
      (accelerator_filter_touchpad E filter raw_delta data time).2 =
        { filter with trackers := fed, last_velocity := v } ∧
      (accelerator_filter_touchpad E filter raw_delta data time).2.last_velocity = v ∧
      (accelerator_filter_touchpad E filter raw_delta data time).2.trackers = fed ∧
      (accelerator_filter_touchpad E filter raw_delta data time).2.base.speed_adjustment =
        filter.base.speed_adjustment ∧
      (accelerator_filter_touchpad E filter raw_delta data time).2.speed_factor =
        filter.speed_factor ∧
      (accelerator_filter_touchpad E filter raw_delta data time).2.dpi = filter.dpi ∧
      (accelerator_filter_touchpad E filter raw_delta data time).2.threshold =
        filter.threshold ∧
      (accelerator_filter_touchpad E filter raw_delta data time).2.accel = filter.accel ∧
      (accelerator_filter_touchpad E filter raw_delta data time).2.velocity = filter.velocity ∧
      (accelerator_filter_touchpad E filter raw_delta data time).2.profile = filter.profile ∧
      (accelerator_filter_touchpad E filter raw_delta data time).2.base.interface =
        filter.base.interface := by
  refine ⟨E.trackers_feed filter.trackers raw_delta time, _, _, rfl, rfl, rfl, ?_, rfl, rfl, rfl,
    rfl, rfl, rfl, rfl, rfl, rfl, rfl, rfl⟩
  cases hp : filter.profile
  simp only [accelerator_filter_touchpad, calculate_acceleration_factor, hp,
    accel_profile_func_t.call]

/-- C14: `touchpad_accelerator_restart` changes nothing but the tracker, which becomes the
result of `trackers_reset` on the previous tracker. -/
theorem touchpad_accelerator_restart_frame (E : Externals ℝ T S D)
    (filter : touchpad_accelerator ℝ T S) (data : D) (time : Nat) :
    (touchpad_accelerator_restart E filter data time).trackers =
      E.trackers_reset filter.trackers time ∧
    (touchpad_accelerator_restart E filter data time).last_velocity = filter.last_velocity ∧
    (touchpad_accelerator_restart E filter data time).speed_factor = filter.speed_factor ∧
    (touchpad_accelerator_restart E filter data time).base.speed_adjustment =
      filter.base.speed_adjustment ∧
    (touchpad_accelerator_restart E filter data time).dpi = filter.dpi ∧
    (touchpad_accelerator_restart E filter data time).velocity = filter.velocity ∧
    (touchpad_accelerator_restart E filter data time).threshold = filter.threshold ∧
    (touchpad_accelerator_restart E filter data time).accel = filter.accel ∧
    (touchpad_accelerator_restart E filter data time).profile = filter.profile ∧
    (touchpad_accelerator_restart E filter data time).base.interface = filter.base.interface ∧
    touchpad_accelerator_restart E filter data time =
      { filter with trackers := E.trackers_reset filter.trackers time } :=
  ⟨rfl, rfl, rfl, rfl, rfl, rfl, rfl, rfl, rfl, rfl, rfl⟩

/-- The state a successful `set_speed` call leaves. -/
theorem touchpad_accelerator_set_speed_eq (filter : touchpad_accelerator ℝ T S) (s : ℝ)
    (hlo : -1 ≤ s) (hhi : s ≤ 1) :
    touchpad_accelerator_set_speed Real.rpow filter s =
      some (true, { filter with
        base := { filter.base with speed_adjustment := s }
        speed_factor := speed_factor Real.rpow s }) := by
  have h : s ≥ -1.0 ∧ s ≤ 1.0 := by
    constructor
    · norm_num
      exact hlo
    · norm_num
      exact hhi
  unfold touchpad_accelerator_set_speed
  rw [if_pos h]

/-- C15: `set_speed` is idempotent and the last write wins: for `a` and `b` in `[-1, 1]`,
setting `a` twice gives the state of setting it once, and setting `a` and then `b` gives the
state of setting `b` alone. -/
theorem touchpad_accelerator_set_speed_idempotent (filter : touchpad_accelerator ℝ T S)
    (a b : ℝ) (halo : -1 ≤ a) (hahi : a ≤ 1) (hblo : -1 ≤ b) (hbhi : b ≤ 1) :
    ∃ filter_a filter_b : touchpad_accelerator ℝ T S,
      touchpad_accelerator_set_speed Real.rpow filter a = some (true, filter_a) ∧
      touchpad_accelerator_set_speed Real.rpow filter b = some (true, filter_b) ∧
      touchpad_accelerator_set_speed Real.rpow filter_a a = some (true, filter_a) ∧
      touchpad_accelerator_set_speed Real.rpow filter_a b = some (true, filter_b) ∧
      (∀ filter_aa, touchpad_accelerator_set_speed Real.rpow filter_a a = some (true, filter_aa) →
        filter_aa.speed_factor = filter_a.speed_factor) := by
  refine ⟨_, _, touchpad_accelerator_set_speed_eq filter a halo hahi,
    touchpad_accelerator_set_speed_eq filter b hblo hbhi, ?_, ?_, ?_⟩
  · rw [touchpad_accelerator_set_speed_eq _ a halo hahi]
  · rw [touchpad_accelerator_set_speed_eq _ b hblo hbhi]
  · intro filter_aa haa
    rw [touchpad_accelerator_set_speed_eq _ a halo hahi] at haa
    simp only [Option.some.injEq, Prod.mk.injEq, true_and] at haa
    rw [← haa]

/-- Witness of C15: the settings one half and minus one on the state of the factory for
400 dpi. -/
theorem touchpad_accelerator_set_speed_idempotent_witness :
    (-1 : ℝ) ≤ 1 / 2 ∧ (1 / 2 : ℝ) ≤ 1 ∧ (-1 : ℝ) ≤ -1 ∧ (-1 : ℝ) ≤ 1 ∧
      ((touchpad_accelerator_set_speed Real.rpow (sampleFilter ℝ) (1 / 2)).bind
          (fun r => touchpad_accelerator_set_speed Real.rpow r.2 (-1))).isSome = true := by
  obtain ⟨filter_a, filter_b, ha, -, -, hab, -⟩ :=
    touchpad_accelerator_set_speed_idempotent (sampleFilter ℝ) (1 / 2) (-1) (by norm_num)
      (by norm_num) (by norm_num) (by norm_num)
  refine ⟨by norm_num, by norm_num, by norm_num, by norm_num, ?_⟩
  rw [ha, Option.some_bind, hab]
  rfl

end Operations

/-! ## The division by the dpi -/

section Degenerate

variable {T S D : Type}

/-- The curve is bounded in absolute value by `4 + 0.1 * |speed|`. -/
theorem sensible_acceleration_factor_abs_le (s : ℝ) :
    |sensible_acceleration_factor s| ≤ 4 + 0.1 * |s| := by
  have hhi := sensible_acceleration_factor_le_max s
  have hlo : -(4 + 0.1 * |s|) ≤ sensible_acceleration_factor s := by
    rw [sensible_acceleration_factor_closed]
    have h1 : -(0.3 + 0.1 * |s|) ≤ min (0.9 : ℝ) (0.1 * s + 0.3) := by
      apply le_min
      · have := abs_nonneg s
        linarith
      · have := neg_abs_le s
        linarith
    have h2 : (0.9 : ℝ) ≤ max 0.9 (min 4 (0.9 + (s - 90) / 100)) := le_max_left _ _
    linarith
  rw [abs_le]
  constructor
  · exact hlo
  · have := abs_nonneg s
    norm_num at hhi
    linarith

/-- C16, the claim as stated fails: the factory stores the dpi 0 unchecked, and the divisor of
the conversion to mm/s in the profile, the dpi of the state, is then zero. -/
theorem factory_zero_dpi_divisor_zero :
    (create_pointer_accelerator_filter_touchpad (sampleExternals ℝ) 0 0 0 false).dpi = 0 ∧
    (((create_pointer_accelerator_filter_touchpad (sampleExternals ℝ) 0 0 0 false).dpi : ℤ) : ℝ)
      = 0 ∧
    ¬ (∀ dpi : Int,
        (((create_pointer_accelerator_filter_touchpad (sampleExternals ℝ) dpi 0 0 false).dpi : ℤ)
          : ℝ) ≠ 0) := by
  have h0 : (create_pointer_accelerator_filter_touchpad (sampleExternals ℝ) 0 0 0 false).dpi = 0 :=
    rfl
  refine ⟨h0, by rw [h0]; norm_num, ?_⟩
  intro hall
  exact hall 0 (by rw [h0]; norm_num)

/-- C16, amended: for every state with a dpi other than 0 (the data model has `dpi > 0`), every
velocity and every speed factor, the divisor of the conversion in the profile is not zero and
the returned factor is the number `curve(v * 1000000 * 25.4 / dpi) * speed_factor * 0.2968`,
bounded in absolute value by `(4 + 0.1 * |v * 1000000 * 25.4 / dpi|) * |speed_factor| * 0.2968`.
The factory stores whatever dpi it is given. -/
theorem touchpad_accel_profile_linear_defined (filter : touchpad_accelerator ℝ T S) (data : D)
    (v : ℝ) (time : Nat) (hdpi : filter.dpi ≠ 0) :
    ((filter.dpi : ℤ) : ℝ) ≠ 0 ∧
    touchpad_accel_profile_linear filter data v time =
      sensible_acceleration_factor (v * 1000000 * 25.4 / (filter.dpi : ℝ)) *
        filter.speed_factor * 0.2968 ∧
    |touchpad_accel_profile_linear filter data v time| ≤
      (4 + 0.1 * |v * 1000000 * 25.4 / (filter.dpi : ℝ)|) * |filter.speed_factor| * 0.2968 ∧
    (∀ (E : Externals ℝ T S D) (dpi : Int) (threshold value : Nat) (averaging : Bool),
      (create_pointer_accelerator_filter_touchpad E dpi threshold value averaging).dpi = dpi) := by
  have hp : touchpad_accel_profile_linear filter data v time =
      sensible_acceleration_factor (v * 1000000 * 25.4 / (filter.dpi : ℝ)) *
        filter.speed_factor * 0.2968 := rfl
  refine ⟨by exact_mod_cast hdpi, hp, ?_, fun _ _ _ _ _ => rfl⟩
  rw [hp, abs_mul, abs_mul, abs_of_pos (show (0 : ℝ) < 0.2968 by norm_num)]
  have h := sensible_acceleration_factor_abs_le (v * 1000000 * 25.4 / (filter.dpi : ℝ))
  have h2 := mul_le_mul_of_nonneg_right h (abs_nonneg filter.speed_factor)
  exact mul_le_mul_of_nonneg_right h2 (by norm_num)

/-- Witness of C16: the state of the factory for 400 dpi with the speed factor 1, at a negative
velocity. -/
theorem touchpad_accel_profile_linear_defined_witness :
    ((({ sampleFilter ℝ with speed_factor := 1 } :
        touchpad_accelerator ℝ (List (device_float_coords ℝ × Nat)) (Nat × Nat)).dpi : ℤ) : ℝ)
      ≠ 0 ∧
    touchpad_accel_profile_linear { sampleFilter ℝ with speed_factor := 1 } () (-1) 0 =
      sensible_acceleration_factor ((-1 : ℝ) * 1000000 * 25.4 / ((400 : ℤ) : ℝ)) * 1 * 0.2968 := by
  have h := touchpad_accel_profile_linear_defined { sampleFilter ℝ with speed_factor := 1 } ()
    (-1) 0 (by decide)
  exact ⟨h.1, h.2.1⟩

end Degenerate

/-! ## The vestigial fields -/

section Vestigial

variable {T S D : Type}

/-- The profile reads the dpi and the speed factor only. -/
theorem touchpad_accel_profile_linear_reads (filter1 filter2 : touchpad_accelerator ℝ T S)
    (hdpi : filter1.dpi = filter2.dpi) (hsf : filter1.speed_factor = filter2.speed_factor)
    (data : D) (v : ℝ) (time : Nat) :
    touchpad_accel_profile_linear filter1 data v time =
      touchpad_accel_profile_linear filter2 data v time := by
  simp only [touchpad_accel_profile_linear, hdpi, hsf]

/-- C17: the vestigial fields have no observable effect.  For two states that differ at most in
`threshold`, `accel` and `velocity`, and a curve integrator that sees the filter through the
profile only, `filter`, `filter_constant`, `filter_scroll`, `set_speed`, `restart` and the
profile return the same results for the same arguments, and the successor states differ again at
most in those fields. -/
theorem vestigial_fields_unobservable (pow : ℝ → ℝ → ℝ) (E : Externals ℝ T S D)
    (hE : integrator_reads_profile_only E) (filter1 filter2 : touchpad_accelerator ℝ T S)
    (h : agree_up_to_vestigial filter1 filter2) :
    (∀ raw_delta data time,
      (accelerator_filter_touchpad E filter1 raw_delta data time).1 =
        (accelerator_filter_touchpad E filter2 raw_delta data time).1 ∧
      agree_up_to_vestigial (accelerator_filter_touchpad E filter1 raw_delta data time).2
        (accelerator_filter_touchpad E filter2 raw_delta data time).2) ∧
    (∀ raw_delta data time,
      (touchpad_constant_filter E filter1 raw_delta data time).1 =
        (touchpad_constant_filter E filter2 raw_delta data time).1 ∧
      agree_up_to_vestigial (touchpad_constant_filter E filter1 raw_delta data time).2
        (touchpad_constant_filter E filter2 raw_delta data time).2) ∧
    (∀ raw_delta data time,
      ((accelerator_interface_touchpad pow E).filter_scroll filter1 raw_delta data time).1 =
        ((accelerator_interface_touchpad pow E).filter_scroll filter2 raw_delta data time).1 ∧
      agree_up_to_vestigial
        ((accelerator_interface_touchpad pow E).filter_scroll filter1 raw_delta data time).2
        ((accelerator_interface_touchpad pow E).filter_scroll filter2 raw_delta data time).2) ∧
    (∀ adjustment,
      (touchpad_accelerator_set_speed pow filter1 adjustment = none ∧
        touchpad_accelerator_set_speed pow filter2 adjustment = none) ∨
      ∃ next1 next2,
        touchpad_accelerator_set_speed pow filter1 adjustment = some (true, next1) ∧
        touchpad_accelerator_set_speed pow filter2 adjustment = some (true, next2) ∧
        agree_up_to_vestigial next1 next2) ∧
    (∀ data time,
      agree_up_to_vestigial (touchpad_accelerator_restart E filter1 data time)
        (touchpad_accelerator_restart E filter2 data time)) ∧
    (∀ (data : D) (v : ℝ) (time : Nat),
      touchpad_accel_profile_linear filter1 data v time =
        touchpad_accel_profile_linear filter2 data v time) := by
  obtain ⟨hbase, hprofile, hlast, htrackers, hdpi, hsf⟩ := h
  have hconst : ∀ raw_delta data time,
      (touchpad_constant_filter E filter1 raw_delta data time).1 =
        (touchpad_constant_filter E filter2 raw_delta data time).1 ∧
      agree_up_to_vestigial (touchpad_constant_filter E filter1 raw_delta data time).2
        (touchpad_constant_filter E filter2 raw_delta data time).2 := by
    intro raw_delta data time
    refine ⟨?_, hbase, hprofile, hlast, htrackers, hdpi, hsf⟩
    simp only [touchpad_constant_filter, hdpi]
  refine ⟨?_, hconst, hconst, ?_, ?_, ?_⟩
  · intro raw_delta data time
    have hfactor : (calculate_acceleration_factor E filter1 raw_delta data time).1 =
        (calculate_acceleration_factor E filter2 raw_delta data time).1 := by
      simp only [calculate_acceleration_factor, hprofile, hlast, htrackers]
      apply hE
      intro speed
      cases filter2.profile
      exact touchpad_accel_profile_linear_reads _ _ hdpi hsf data speed time
    constructor
    · show E.normalize_for_dpi
          { x := raw_delta.x * (calculate_acceleration_factor E filter1 raw_delta data time).1
            y := raw_delta.y * (calculate_acceleration_factor E filter1 raw_delta data time).1 }
          filter1.dpi =
        E.normalize_for_dpi
          { x := raw_delta.x * (calculate_acceleration_factor E filter2 raw_delta data time).1
            y := raw_delta.y * (calculate_acceleration_factor E filter2 raw_delta data time).1 }
          filter2.dpi
      rw [hfactor, hdpi]
    · refine ⟨hbase, hprofile, ?_, ?_, hdpi, hsf⟩
      · show E.trackers_velocity (E.trackers_feed filter1.trackers raw_delta time) time =
          E.trackers_velocity (E.trackers_feed filter2.trackers raw_delta time) time
        rw [htrackers]
      · show E.trackers_feed filter1.trackers raw_delta time =
          E.trackers_feed filter2.trackers raw_delta time
        rw [htrackers]
  · intro adjustment
    by_cases hr : adjustment ≥ -1.0 ∧ adjustment ≤ 1.0
    · right
      refine ⟨{ filter1 with
          base := { filter1.base with speed_adjustment := adjustment }
          speed_factor := speed_factor pow adjustment },
        { filter2 with
          base := { filter2.base with speed_adjustment := adjustment }
          speed_factor := speed_factor pow adjustment }, ?_, ?_, ?_⟩
      · unfold touchpad_accelerator_set_speed
        rw [if_pos hr]
      · unfold touchpad_accelerator_set_speed
        rw [if_pos hr]
      · refine ⟨?_, hprofile, hlast, htrackers, hdpi, rfl⟩
        show ({ filter1.base with speed_adjustment := adjustment } : motion_filter ℝ) =
          { filter2.base with speed_adjustment := adjustment }
        rw [hbase]
    · left
      unfold touchpad_accelerator_set_speed
      rw [if_neg hr, if_neg hr]
      exact ⟨rfl, rfl⟩
  · intro data time
    refine ⟨hbase, hprofile, hlast, ?_, hdpi, hsf⟩
    show E.trackers_reset filter1.trackers time = E.trackers_reset filter2.trackers time
    rw [htrackers]
  · intro data v time
    exact touchpad_accel_profile_linear_reads _ _ hdpi hsf data v time

/-- The sample integrator sees the filter through the profile only. -/
theorem sampleExternals_reads_profile_only : integrator_reads_profile_only (sampleExternals ℝ) := by
  intro filter1 filter2 profile data velocity last_velocity time hprofile
  simp only [sampleExternals, hprofile]

/-- Witness of C17: the state of the factory for 400 dpi with the speed factor 1 against the
same state with other values of `threshold`, `accel` and `velocity`, in a `filter` call. -/
theorem vestigial_fields_unobservable_witness :
    (accelerator_filter_touchpad (sampleExternals ℝ)
        { sampleFilter ℝ with speed_factor := 1 } ⟨1, 2⟩ () 10).1 =
      (accelerator_filter_touchpad (sampleExternals ℝ)
        { sampleFilter ℝ with speed_factor := 1, threshold := 7, accel := 3, velocity := 5 }
        ⟨1, 2⟩ () 10).1 :=
  ((vestigial_fields_unobservable Real.rpow (sampleExternals ℝ)
    sampleExternals_reads_profile_only { sampleFilter ℝ with speed_factor := 1 }
    { sampleFilter ℝ with speed_factor := 1, threshold := 7, accel := 3, velocity := 5 }
    ⟨rfl, rfl, rfl, rfl, rfl, rfl⟩).1 ⟨1, 2⟩ () 10).1

end Vestigial

/-! ## The constant path against the accelerated path -/

section Plateau

variable {T S D : Type}

/-- On the plateau of the curve the profile is `0.9 * speed_factor * 0.2968`. -/
theorem touchpad_accel_profile_linear_on_plateau (filter : touchpad_accelerator ℝ T S)
    (data : D) (v : ℝ) (time : Nat)
    (h7 : 7 ≤ v * 1000000 * 25.4 / (filter.dpi : ℝ))
    (h90 : v * 1000000 * 25.4 / (filter.dpi : ℝ) ≤ 90) :
    touchpad_accel_profile_linear filter data v time = 0.9 * filter.speed_factor * 0.2968 := by
  unfold touchpad_accel_profile_linear sensible_acceleration_factor v_us2s TP_MAGIC_SLOWDOWN
  simp only []
  rw [if_neg (by linarith), if_pos (by linarith)]

/-- C18: the constant path matches the accelerated path on the plateau.  For a positive dpi and
the speed factor 1.0, when the new velocity of the tracker and the stored `last_velocity` both
convert to speeds in `[7, 90]` mm/s, the integrator averages the profile over the two samples
and their midpoint, and `normalize_for_dpi` scales each coordinate by a factor that depends on
the dpi only, `accelerator_filter_touchpad` returns the same normalised delta as
`touchpad_constant_filter` for the same raw delta. -/
theorem constant_matches_accelerated_on_plateau (E : Externals ℝ T S D)
    (hint : integrator_averages E) (hnorm : normalize_scales E)
    (filter : touchpad_accelerator ℝ T S) (raw_delta : device_float_coords ℝ) (data : D)
    (time : Nat) (hdpi : 0 < filter.dpi) (hsf : filter.speed_factor = 1.0)
    (hv7 : 7 ≤ E.trackers_velocity (E.trackers_feed filter.trackers raw_delta time) time *
      1000000 * 25.4 / (filter.dpi : ℝ))
    (hv90 : E.trackers_velocity (E.trackers_feed filter.trackers raw_delta time) time *
      1000000 * 25.4 / (filter.dpi : ℝ) ≤ 90)
    (hl7 : 7 ≤ filter.last_velocity * 1000000 * 25.4 / (filter.dpi : ℝ))
    (hl90 : filter.last_velocity * 1000000 * 25.4 / (filter.dpi : ℝ) ≤ 90) :
    (accelerator_filter_touchpad E filter raw_delta data time).1 =
      (touchpad_constant_filter E filter raw_delta data time).1 := by
  obtain ⟨scale, hscale⟩ := hnorm
  have hd : (0 : ℝ) < (filter.dpi : ℝ) := by exact_mod_cast hdpi
  have hfactor : (calculate_acceleration_factor E filter raw_delta data time).1 =
      0.9 * filter.speed_factor * 0.2968 := by
    cases hp : filter.profile
    simp only [calculate_acceleration_factor, hp, accel_profile_func_t.call]
    apply hint
    · exact touchpad_accel_profile_linear_on_plateau _ data _ time hv7 hv90
    · exact touchpad_accel_profile_linear_on_plateau _ data _ time hl7 hl90
    · apply touchpad_accel_profile_linear_on_plateau _ data _ time
      · show 7 ≤ (filter.last_velocity +
            E.trackers_velocity (E.trackers_feed filter.trackers raw_delta time) time) / 2 *
              1000000 * 25.4 / (filter.dpi : ℝ)
        rw [le_div_iff₀ hd] at hv7 hl7 ⊢
        linarith
      · show (filter.last_velocity +
            E.trackers_velocity (E.trackers_feed filter.trackers raw_delta time) time) / 2 *
              1000000 * 25.4 / (filter.dpi : ℝ) ≤ 90
        rw [div_le_iff₀ hd] at hv90 hl90 ⊢
        linarith
  show E.normalize_for_dpi
      { x := raw_delta.x * (calculate_acceleration_factor E filter raw_delta data time).1
        y := raw_delta.y * (calculate_acceleration_factor E filter raw_delta data time).1 }
      filter.dpi = _
  rw [hfactor, hsf]
  simp only [touchpad_constant_filter, hscale, TP_MAGIC_SLOWDOWN]
  rw [normalized_coords.mk.injEq]
  constructor <;> ring

/-- The sample integrator, Simpson's rule, averages the profile. -/
theorem sampleExternals_integrator_averages : integrator_averages (sampleExternals ℝ) := by
  intro filter profile data velocity last_velocity time c h1 h2 h3
  simp only [sampleExternals, h1, h2, h3]
  ring

/-- The sample normaliser scales each coordinate by `1000 / dpi`. -/
theorem sampleExternals_normalize_scales : normalize_scales (sampleExternals ℝ) := by
  refine ⟨fun dpi => 1000 / (dpi : ℝ), ?_⟩
  intro coords dpi
  simp only [sampleExternals, mul_div_assoc]

/-- Witness of C18: 400 dpi, the speed factor 1, a stored and a new velocity of 63.5 mm/s. -/
theorem constant_matches_accelerated_on_plateau_witness :
    (accelerator_filter_touchpad (sampleExternals ℝ)
        { sampleFilter ℝ with speed_factor := 1, last_velocity := 1 / 1000 }
        ⟨1 / 2000, 1 / 2000⟩ () 10).1 =
      (touchpad_constant_filter (sampleExternals ℝ)
        { sampleFilter ℝ with speed_factor := 1, last_velocity := 1 / 1000 }
        ⟨1 / 2000, 1 / 2000⟩ () 10).1 := by
  have hv : (sampleExternals ℝ).trackers_velocity
      ((sampleExternals ℝ).trackers_feed
        ({ sampleFilter ℝ with speed_factor := 1, last_velocity := 1 / 1000 } :
          touchpad_accelerator ℝ (List (device_float_coords ℝ × Nat)) (Nat × Nat)).trackers
        ⟨1 / 2000, 1 / 2000⟩ 10) 10 = 1 / 1000 := by
    show |(1 / 2000 : ℝ)| + |(1 / 2000 : ℝ)| = 1 / 1000
    rw [abs_of_pos (by norm_num)]
    norm_num
  have hd : ((({ sampleFilter ℝ with speed_factor := 1, last_velocity := 1 / 1000 } :
      touchpad_accelerator ℝ (List (device_float_coords ℝ × Nat)) (Nat × Nat)).dpi : ℤ) : ℝ)
        = 400 := by
    show (((400 : ℤ) : ℝ)) = 400
    norm_num
  have hl : ({ sampleFilter ℝ with speed_factor := 1, last_velocity := 1 / 1000 } :
      touchpad_accelerator ℝ (List (device_float_coords ℝ × Nat)) (Nat × Nat)).last_velocity
        = 1 / 1000 := rfl
  exact constant_matches_accelerated_on_plateau (sampleExternals ℝ)
    sampleExternals_integrator_averages sampleExternals_normalize_scales
    { sampleFilter ℝ with speed_factor := 1, last_velocity := 1 / 1000 }
    ⟨1 / 2000, 1 / 2000⟩ () 10 (by decide) (by show (1 : ℝ) = 1.0; norm_num)
    (by rw [hv, hd]; norm_num) (by rw [hv, hd]; norm_num)
    (by rw [hl, hd]; norm_num) (by rw [hl, hd]; norm_num)

end Plateau

/-! ## The two velocity fields -/

section Velocity

variable {T S D : Type}

/-- No call writes the `velocity` field. -/
theorem dispatch_keeps_velocity (pow : ℝ → ℝ → ℝ) (E : Externals ℝ T S D)
    (filter filter1 : touchpad_accelerator ℝ T S) (call : motion_filter_call ℝ D)
    (h : dispatch pow E filter call = some filter1) : filter1.velocity = filter.velocity := by
  cases call with
  | set_speed adjustment =>
    simp only [dispatch, accelerator_interface_touchpad, touchpad_accelerator_set_speed] at h
    split_ifs at h with hr
    · simp only [Option.map_some', Option.some.injEq] at h
      subst h
      rfl
    · simp at h
  | filter unaccelerated data time =>
    simp only [dispatch, Option.some.injEq] at h
    subst h
    rfl
  | filter_constant unaccelerated data time =>
    simp only [dispatch, Option.some.injEq] at h
    subst h
    rfl
  | filter_scroll unaccelerated data time =>
    simp only [dispatch, Option.some.injEq] at h
    subst h
    rfl
  | restart data time =>
    simp only [dispatch, Option.some.injEq] at h
    subst h
    rfl

/-- No sequence of calls writes the `velocity` field. -/
theorem run_keeps_velocity (pow : ℝ → ℝ → ℝ) (E : Externals ℝ T S D)
    (calls : List (motion_filter_call ℝ D)) :
    ∀ filter filter1 : touchpad_accelerator ℝ T S,
      run pow E calls filter = some filter1 → filter1.velocity = filter.velocity := by
  induction calls with
  | nil =>
    intro filter filter1 h
    simp only [run, Option.some.injEq] at h
    subst h
    rfl
  | cons call calls ih =>
    intro filter filter1 h
    simp only [run, Option.bind_eq_some] at h
    obtain ⟨mid, hmid, hrest⟩ := h
    exact (ih mid filter1 hrest).trans (dispatch_keeps_velocity pow E filter mid call hmid)

/-- C19, the claim as stated fails: after the first `filter` call on the state of the factory,
with a tracker velocity of 3, the `velocity` field is still 0 and `last_velocity` is 3, the new
estimate, not the prior 0. -/
theorem velocity_field_not_updated :
    (sampleExternals ℝ).trackers_velocity
      ((sampleExternals ℝ).trackers_feed (sampleFilter ℝ).trackers ⟨1, 2⟩ 10) 10 = 3 ∧
    (sampleFilter ℝ).last_velocity = 0 ∧
    (accelerator_filter_touchpad (sampleExternals ℝ) (sampleFilter ℝ) ⟨1, 2⟩ () 10).2.velocity
      = 0 ∧
    (accelerator_filter_touchpad (sampleExternals ℝ) (sampleFilter ℝ) ⟨1, 2⟩ ()
      10).2.last_velocity = 3 ∧
    (accelerator_filter_touchpad (sampleExternals ℝ) (sampleFilter ℝ) ⟨1, 2⟩ () 10).2.velocity ≠
      (sampleExternals ℝ).trackers_velocity
        ((sampleExternals ℝ).trackers_feed (sampleFilter ℝ).trackers ⟨1, 2⟩ 10) 10 ∧
    (accelerator_filter_touchpad (sampleExternals ℝ) (sampleFilter ℝ) ⟨1, 2⟩ ()
      10).2.last_velocity ≠ (sampleFilter ℝ).last_velocity := by
  have hv : (sampleExternals ℝ).trackers_velocity
      ((sampleExternals ℝ).trackers_feed (sampleFilter ℝ).trackers ⟨1, 2⟩ 10) 10 = 3 := by
    show |(1 : ℝ)| + |(2 : ℝ)| = 3
    rw [abs_of_pos (by norm_num), abs_of_pos (by norm_num)]
    norm_num
  have h0 : (sampleFilter ℝ).last_velocity = 0 := by
    show (0.0 : ℝ) = 0
    norm_num
  have hvel : (accelerator_filter_touchpad (sampleExternals ℝ) (sampleFilter ℝ) ⟨1, 2⟩ ()
      10).2.velocity = 0 := rfl
  have hlast : (accelerator_filter_touchpad (sampleExternals ℝ) (sampleFilter ℝ) ⟨1, 2⟩ ()
      10).2.last_velocity = 3 := hv
  refine ⟨hv, h0, hvel, hlast, ?_, ?_⟩
  · rw [hvel, hv]
    norm_num
  · rw [hlast, h0]
    norm_num

/-- C19, amended: after every `accelerator_filter_touchpad` call the `last_velocity` field holds
the most recent velocity estimate, the one the tracker returned for that call, so that the next
`filter` call hands it to the integrator as the prior estimate; the `velocity` field is left as
it was, and in every state reached from the state of the factory it is the initial 0. -/
theorem last_velocity_holds_newest_estimate (E : Externals ℝ T S D) :
    (∀ (filter : touchpad_accelerator ℝ T S) (raw_delta : device_float_coords ℝ) (data : D)
        (time : Nat),
      (accelerator_filter_touchpad E filter raw_delta data time).2.last_velocity =
        E.trackers_velocity (E.trackers_feed filter.trackers raw_delta time) time ∧
      (accelerator_filter_touchpad E filter raw_delta data time).2.velocity = filter.velocity ∧
      (calculate_acceleration_factor E filter raw_delta data time).1 =
        E.calculate_acceleration_simpsons
          { filter with trackers := E.trackers_feed filter.trackers raw_delta time }
          touchpad_accel_profile_linear data
          (E.trackers_velocity (E.trackers_feed filter.trackers raw_delta time) time)
          filter.last_velocity time) ∧
    (∀ (dpi : Int) (threshold value : Nat) (averaging : Bool),
      (create_pointer_accelerator_filter_touchpad E dpi threshold value averaging).last_velocity
        = 0 ∧
      (create_pointer_accelerator_filter_touchpad E dpi threshold value averaging).velocity
        = 0) ∧
    (∀ (dpi : Int) (threshold value : Nat) (averaging : Bool)
        (calls : List (motion_filter_call ℝ D)) (filter1 : touchpad_accelerator ℝ T S),
      run Real.rpow E calls
          (create_pointer_accelerator_filter_touchpad E dpi threshold value averaging) =
        some filter1 →
      filter1.velocity = 0) := by
  refine ⟨?_, ?_, ?_⟩
  · intro filter raw_delta data time
    refine ⟨rfl, rfl, ?_⟩
    cases hp : filter.profile
    simp only [calculate_acceleration_factor, hp, accel_profile_func_t.call]
  · intro dpi threshold value averaging
    refine ⟨?_, rfl⟩
    show (0.0 : ℝ) = 0
    norm_num
  · intro dpi threshold value averaging calls filter1 hrun
    exact run_keeps_velocity Real.rpow E calls _ filter1 hrun

/-- Witness of C19: the first `filter` call on the state of the factory for 400 dpi. -/
theorem last_velocity_holds_newest_estimate_witness :
    (accelerator_filter_touchpad (sampleExternals ℝ) (sampleFilter ℝ) ⟨1, 2⟩ ()
        10).2.last_velocity =
      (sampleExternals ℝ).trackers_velocity
        ((sampleExternals ℝ).trackers_feed (sampleFilter ℝ).trackers ⟨1, 2⟩ 10) 10 ∧
    (accelerator_filter_touchpad (sampleExternals ℝ) (sampleFilter ℝ) ⟨1, 2⟩ () 10).2.velocity =
      (sampleFilter ℝ).velocity :=
  ⟨((last_velocity_holds_newest_estimate (sampleExternals ℝ)).1 (sampleFilter ℝ) ⟨1, 2⟩ ()
      10).1,
    ((last_velocity_holds_newest_estimate (sampleExternals ℝ)).1 (sampleFilter ℝ) ⟨1, 2⟩ ()
      10).2.1⟩

end Velocity

/-! ## Monotonicity of the speed mapping -/

section SpeedMonotone

variable {T S D : Type}

/-- The speed mapping is strictly increasing on `[-1, 1]`. -/
theorem speed_factor_lt (s t : ℝ) (hs : -1 ≤ s) (hst : s < t) :
    speed_factor Real.rpow s < speed_factor Real.rpow t := by
  rw [speed_factor_rpow, speed_factor_rpow]
  have h : (s + 1) ^ (2.38 : ℝ) < (t + 1) ^ (2.38 : ℝ) :=
    Real.rpow_lt_rpow (by linarith) (by linarith) (by norm_num)
  linarith

/-- C20: the speed mapping is strictly increasing on `[-1, 1]`: for `-1 ≤ s < t ≤ 1`,
`speed_factor(s) < speed_factor(t)`; hence, at the same velocity and dpi, the larger speed
setting never yields a smaller profile factor: for a positive dpi and a non-negative velocity,
the velocities the profile receives, the factor is strictly larger, and it is not smaller
wherever the curve value is non-negative. -/
theorem speed_factor_strictly_increasing (s t : ℝ) (hs : -1 ≤ s) (hst : s < t) (_ht : t ≤ 1) :
    speed_factor Real.rpow s < speed_factor Real.rpow t ∧
    (∀ (filter_s filter_t : touchpad_accelerator ℝ T S) (data : D) (v : ℝ) (time : Nat),
      filter_s.speed_factor = speed_factor Real.rpow s →
      filter_t.speed_factor = speed_factor Real.rpow t →
      filter_t.dpi = filter_s.dpi →
      (0 ≤ sensible_acceleration_factor (v * 1000000 * 25.4 / (filter_s.dpi : ℝ)) →
        touchpad_accel_profile_linear filter_s data v time ≤
          touchpad_accel_profile_linear filter_t data v time) ∧
      (0 < filter_s.dpi → 0 ≤ v →
        touchpad_accel_profile_linear filter_s data v time <
          touchpad_accel_profile_linear filter_t data v time)) := by
  have hsf := speed_factor_lt s t hs hst
  refine ⟨hsf, ?_⟩
  intro filter_s filter_t data v time hfs hft hdpi
  have hps : touchpad_accel_profile_linear filter_s data v time =
      sensible_acceleration_factor (v * 1000000 * 25.4 / (filter_s.dpi : ℝ)) *
        speed_factor Real.rpow s * 0.2968 := by
    rw [← hfs]
    rfl
  have hpt : touchpad_accel_profile_linear filter_t data v time =
      sensible_acceleration_factor (v * 1000000 * 25.4 / (filter_s.dpi : ℝ)) *
        speed_factor Real.rpow t * 0.2968 := by
    rw [← hft, ← hdpi]
    rfl
  constructor
  · intro hcurve
    rw [hps, hpt]
    have := mul_le_mul_of_nonneg_left hsf.le hcurve
    linarith
  · intro hdpos hv
    rw [hps, hpt]
    have hcurve := sensible_acceleration_factor_ge_min _
      (converted_speed_nonneg filter_s.dpi v hdpos hv)
    have := mul_lt_mul_of_pos_left hsf (lt_of_lt_of_le (by norm_num) hcurve)
    linarith

/-- Witness of C20: the speed settings 0 and 1 at 400 dpi and the velocity of 50 mm/s. -/
theorem speed_factor_strictly_increasing_witness :
    (-1 : ℝ) ≤ 0 ∧ (0 : ℝ) < 1 ∧ (1 : ℝ) ≤ 1 ∧
    speed_factor Real.rpow 0 < speed_factor Real.rpow 1 ∧
    touchpad_accel_profile_linear
        { sampleFilter ℝ with speed_factor := speed_factor Real.rpow 0 } ()
        (50 * 400 / (1000000 * 25.4)) 0 <
      touchpad_accel_profile_linear
        { sampleFilter ℝ with speed_factor := speed_factor Real.rpow 1 } ()
        (50 * 400 / (1000000 * 25.4)) 0 := by
  have h := speed_factor_strictly_increasing (T := List (device_float_coords ℝ × Nat))
    (S := Nat × Nat) (D := Unit) 0 1 (by norm_num) (by norm_num) le_rfl
  exact ⟨by norm_num, by norm_num, le_rfl, h.1,
    (h.2 { sampleFilter ℝ with speed_factor := speed_factor Real.rpow 0 }
      { sampleFilter ℝ with speed_factor := speed_factor Real.rpow 1 } ()
      (50 * 400 / (1000000 * 25.4)) 0 rfl rfl rfl).2 (by decide) (by norm_num)⟩

end SpeedMonotone

end FilterTouchpad
